import Mathlib

/-!
Verification development for the advanced analytics engine in
`backend/app/analytics/advanced_analytics.py`.

The engine is shallowly embedded: transaction tables become lists of typed
rows plus column-presence flags, pandas/networkx computations become
executable Lean functions over `Rat`, Python exceptions become `Except`
outcomes, and the in-place column additions performed by the temporal module
become an explicit post-call table returned next to each module's outcome.
Columns the repository's data generators always supply (transaction id,
merchant name, merchant category, payment method, amount) are assumed
present; the columns whose absence the engine itself tests or trips over
(customer id, timestamp, location) carry presence flags.
-/

namespace Analytics

/-- Transaction record: one row of the transaction table (§3 of the spec,
and the columns read by `advanced_analytics.py`).  Amounts are exact
rationals, timestamps are seconds since the Unix epoch. -/
structure Row where
  transaction_id : String
  customer_id : String
  merchant_name : String
  merchant_category : String
  payment_method : String
  amount : Rat
  location : String
  timestamp : Nat
deriving DecidableEq

/-- A transaction table: rows plus presence flags for the three columns the
engine conditions on, plus the derived columns the temporal module adds in
place (pandas keeps column insertion order, so they are an ordered list). -/
structure Table where
  rows : List Row
  hasCustomerId : Bool
  hasTimestamp : Bool
  hasLocation : Bool
  extraCols : List (String × List Nat)
deriving DecidableEq

/-- Hour of day of a timestamp, as `pd.to_datetime(ts).dt.hour`. -/
def hourOf (t : Nat) : Nat := t / 3600 % 24

/-- Day of week (Monday = 0) as `dt.dayofweek`; the epoch day was a Thursday. -/
def dowOf (t : Nat) : Nat := (t / 86400 + 3) % 7

/-- Calendar date as a day count, `dt.date` up to bijection. -/
def dateOf (t : Nat) : Nat := t / 86400

/-- Civil (month, day-of-month) from a day count since the epoch, the
standard era-based Gregorian conversion used by `dt.month` / `dt.day`. -/
def civilOfDays (days : Nat) : Nat × Nat :=
  let z := days + 719468
  let doe := z % 146097
  let yoe := (doe - doe / 1460 + doe / 36524 - doe / 146096) / 365
  let doy := doe - (365 * yoe + yoe / 4 - yoe / 100)
  let mp := (5 * doy + 2) / 153
  let d := doy - (153 * mp + 2) / 5 + 1
  let m := if mp < 10 then mp + 3 else mp - 9
  (m, d)

/-- Month component, `dt.month`. -/
def monthOf (t : Nat) : Nat := (civilOfDays (dateOf t)).1

/-- Day-of-month component, `dt.day`. -/
def domOf (t : Nat) : Nat := (civilOfDays (dateOf t)).2

/-! ## Entity graph builder (network_analysis, lines 64–83) -/

/-- One directed edge of the transaction graph, with the accumulated
attributes the code stores on it. -/
structure Edge where
  source : String
  target : String
  weight : Rat
  transaction_count : Nat
  timestamps : List Nat
deriving DecidableEq

/-- Source key of a transaction (line 69): the customer id, or — when the
table has no customer-id column — the constant fallback label built from the
hash of the (likewise absent) account number.  Python's per-process string
hash is an opaque constant here; all rows share it, so it is one label. -/
def srcOf (hasCustomerId : Bool) (r : Row) : String :=
  if hasCustomerId then r.customer_id else "CUST_HASH0"

/-- Timestamp attached to an edge update (line 72): the row's timestamp, or
the current time when the table has no timestamp column. -/
def tsOf (hasTimestamp : Bool) (now : Nat) (r : Row) : Nat :=
  if hasTimestamp then r.timestamp else now

/-- The (source, target) key of an edge. -/
def edgeKey (e : Edge) : String × String := (e.source, e.target)

/-- Lines 75–78: accumulate one transaction onto an existing edge —
add the amount to the weight, bump the count, append the timestamp. -/
def bumpEdge (e : Edge) (a : Rat) (ts : Nat) : Edge :=
  { e with weight := e.weight + a,
           transaction_count := e.transaction_count + 1,
           timestamps := e.timestamps ++ [ts] }

/-- The first edge with the given source and target, if any. -/
def findEdge (es : List Edge) (s g : String) : Option Edge :=
  match es with
  | [] => none
  | e :: rest =>
    if e.source = s ∧ e.target = g then some e else findEdge rest s g

/-- Lines 74–83: if an edge between source and target exists, accumulate
amount and count and append the timestamp; else create the edge. -/
def addTransaction (es : List Edge) (s g : String) (a : Rat) (ts : Nat) :
    List Edge :=
  if es.any (fun e => e.source = s && e.target = g) then
    es.map (fun e =>
      if e.source = s && e.target = g then bumpEdge e a ts else e)
  else
    es ++ [{ source := s, target := g, weight := a,
             transaction_count := 1, timestamps := [ts] }]

/-- The edge list of the graph built by the loop at lines 68–83. -/
def buildGraph (t : Table) (now : Nat) : List Edge :=
  t.rows.foldl
    (fun es r =>
      addTransaction es (srcOf t.hasCustomerId r) r.merchant_name r.amount
        (tsOf t.hasTimestamp now r))
    []

/-- Append an element unless already present (node registration order of
networkx: nodes appear in edge insertion order, source before target). -/
def insertNode (ns : List String) (v : String) : List String :=
  if ns.contains v then ns else ns ++ [v]

/-- Nodes of the graph in networkx registration order. -/
def graphNodes (es : List Edge) : List String :=
  es.foldl (fun ns e => insertNode (insertNode ns e.source) e.target) []

/-- Directed out-neighbours of a node (with multiplicity removed: the edge
list already has one edge per pair). -/
def successors (es : List Edge) (v : String) : List String :=
  (es.filter (fun e => e.source = v)).map (·.target)

/-- Undirected neighbours of a node in the undirected projection,
self-loops excluded (networkx clustering ignores self-loops). -/
def undirectedNeighbors (es : List Edge) (v : String) : List String :=
  (es.foldl
    (fun ns e =>
      if e.source = v && e.target ≠ v then insertNode ns e.target
      else if e.target = v && e.source ≠ v then insertNode ns e.source
      else ns)
    [])

/-- Whether two nodes are adjacent in the undirected projection. -/
def undirectedAdj (es : List Edge) (u v : String) : Bool :=
  es.any (fun e => (e.source = u && e.target = v) || (e.source = v && e.target = u))

/-- Degree of a node in the directed graph: in-degree plus out-degree
(`G.degree`, self-loops counted twice). -/
def degreeOf (es : List Edge) (v : String) : Nat :=
  (es.filter (fun e => e.source = v)).length +
    (es.filter (fun e => e.target = v)).length

/-- Network density, `nx.density` on a directed graph: `m / (n (n - 1))`,
0 when there are no edges or at most one node. -/
def densityOf (n m : Nat) : Rat :=
  if m = 0 || n ≤ 1 then 0 else (m : Rat) / ((n : Rat) * ((n : Rat) - 1))

/-- Local clustering coefficient of a node of the undirected projection:
twice the number of triangles through it over `deg (deg - 1)`. -/
def localClustering (es : List Edge) (v : String) : Rat :=
  let nbrs := undirectedNeighbors es v
  let k := nbrs.length
  if k < 2 then 0
  else
    let pairs := (nbrs.map (fun u => (nbrs.filter
      (fun w => u ≠ w && undirectedAdj es u w)).length)).sum
    (pairs : Rat) / ((k : Rat) * ((k : Rat) - 1))

/-- Average clustering coefficient, `nx.average_clustering` of the
undirected projection (caller guards the empty graph). -/
def averageClustering (es : List Edge) (nodes : List String) : Rat :=
  if nodes.isEmpty then 0
  else ((nodes.map (localClustering es)).sum) / (nodes.length : Rat)

/-- Degree centrality, `nx.degree_centrality`: degree over `n - 1`; the
networkx implementation returns 1 for every node of a graph with at most
one node. -/
def degreeCentrality (es : List Edge) (nodes : List String) (v : String) : Rat :=
  if nodes.length ≤ 1 then 1
  else (degreeOf es v : Rat) / ((nodes.length : Rat) - 1)

/-- Simple directed paths from `s` to `g` with at most `fuel` edges. -/
def simplePathsAux (es : List Edge) : Nat → String → String → List (List String)
  | 0, s, g => if s = g then [[s]] else []
  | fuel + 1, s, g =>
    if s = g then [[s]]
    else
      (successors es s).flatMap (fun u =>
        ((simplePathsAux es fuel u g).filter (fun p => !p.contains s)).map
          (fun p => s :: p))

/-- All shortest directed paths from `s` to `g` (empty if unreachable). -/
def shortestPaths (es : List Edge) (nodes : List String) (s g : String) :
    List (List String) :=
  let ps := simplePathsAux es nodes.length s g
  match (ps.map List.length).min? with
  | none => []
  | some m => ps.filter (fun p => p.length = m)

/-- Betweenness centrality of `v`, `nx.betweenness_centrality` on the
directed graph: pair-dependency sums normalized by `(n-1)(n-2)` when
`n > 2` (networkx applies no scaling to smaller directed graphs). -/
def betweennessCentrality (es : List Edge) (nodes : List String) (v : String) :
    Rat :=
  let raw := (nodes.flatMap (fun s =>
    nodes.map (fun g =>
      if s = g || s = v || g = v then (0 : Rat)
      else
        let sp := shortestPaths es nodes s g
        if sp.isEmpty then 0
        else ((sp.filter (fun p => p.contains v)).length : Rat) /
          (sp.length : Rat)))).sum
  let n := nodes.length
  if n > 2 then raw / (((n : Rat) - 1) * ((n : Rat) - 2)) else raw

/-- Total outgoing edge weight of a node. -/
def outWeightOf (es : List Edge) (v : String) : Rat :=
  ((es.filter (fun e => e.source = v)).map (·.weight)).sum

/-- Lookup into a pagerank vector (association list keyed by node). -/
def prLookup (x : List (String × Rat)) (v : String) : Rat :=
  (x.lookup v).getD 0

/-- One power-iteration step of `nx.pagerank` with damping 0.85, uniform
personalization, edge weights normalized by total out-weight, and dangling
mass (nodes of zero total out-weight) redistributed uniformly. -/
def pagerankStep (es : List Edge) (nodes : List String)
    (x : List (String × Rat)) : List (String × Rat) :=
  let N : Rat := nodes.length
  let danglesum :=
    ((nodes.filter (fun u => outWeightOf es u = 0)).map (prLookup x)).sum
  nodes.map (fun v =>
    let inflow := ((es.filter
        (fun e => e.target = v && outWeightOf es e.source ≠ 0)).map
      (fun e => prLookup x e.source * e.weight / outWeightOf es e.source)).sum
    (v, (1 - 85/100) / N + (85/100) * (danglesum / N) + (85/100) * inflow))

/-- Total-variation distance between successive pagerank vectors. -/
def pagerankErr (nodes : List String) (x y : List (String × Rat)) : Rat :=
  (nodes.map (fun v => |prLookup x v - prLookup y v|)).sum

/-- The pagerank iteration loop: up to `fuel` steps, stopping when the
error drops below `n · 10⁻⁶`; `none` models the
`PowerIterationFailedConvergence` exception. -/
def pagerankLoop (es : List Edge) (nodes : List String) :
    Nat → List (String × Rat) → Option (List (String × Rat))
  | 0, _ => none
  | fuel + 1, x =>
    let x' := pagerankStep es nodes x
    if pagerankErr nodes x' x < (nodes.length : Rat) * (1 / 1000000) then
      some x'
    else pagerankLoop es nodes fuel x'

/-- `nx.pagerank(G)`: start uniform, iterate at most 100 times. -/
def pagerankOf (es : List Edge) (nodes : List String) :
    Option (List (String × Rat)) :=
  pagerankLoop es nodes 100 (nodes.map (fun v => (v, 1 / (nodes.length : Rat))))

/-- Depth-first collection of the undirected component reachable from the
work list, with enough fuel to exhaust it. -/
def componentFrom (es : List Edge) :
    Nat → List String → List String → List String
  | 0, _, vis => vis
  | _ + 1, [], vis => vis
  | fuel + 1, v :: stack, vis =>
    if vis.contains v then componentFrom es fuel stack vis
    else componentFrom es fuel (undirectedNeighbors es v ++ stack) (vis ++ [v])

/-- Connected components of the undirected projection
(`nx.connected_components`), in order of first node appearance. -/
def connectedComponents (es : List Edge) (nodes : List String) :
    List (List String) :=
  let fuel := (nodes.length + 1) * (2 * es.length + nodes.length + 2)
  (nodes.foldl
    (fun (acc : List (List String) × List String) v =>
      if acc.2.contains v then acc
      else
        let comp := componentFrom es fuel [v] []
        (acc.1 ++ [comp], acc.2 ++ comp))
    ([], [])).1

/-! ## Network analysis module (lines 52–152) -/

/-- The `network_metrics` map of the network summary (lines 86–91). -/
structure NetworkMetrics where
  total_nodes : Nat
  total_edges : Nat
  density : Rat
  average_clustering : Rat
deriving DecidableEq

/-- One entry of the `suspicious_nodes` list (lines 105–111). -/
structure SuspiciousNode where
  node_id : String
  degree_centrality : Rat
  betweenness_centrality : Rat
  pagerank : Rat
  total_connections : Nat
deriving DecidableEq

/-- The summary map returned by network analysis (lines 139–144). -/
structure NetworkSummary where
  network_metrics : NetworkMetrics
  suspicious_entities_count : Nat
  communities_detected : Nat
  risk_level : String
deriving DecidableEq

/-- The network `AnalyticsResult` (the serialized graph of the detailed
results adds nothing over the edge list and is not carried). -/
structure NetworkResult where
  timestamp : Nat
  summary : NetworkSummary
  suspicious_nodes : List SuspiciousNode
  communities : List (List String)
  recommendations : List String
  visualizations : List String
deriving DecidableEq

/-- Combined centrality score used as the descending sort key (line 115). -/
def suspScore (x : SuspiciousNode) : Rat :=
  x.degree_centrality + x.betweenness_centrality + x.pagerank

/-- Stable descending insertion for the suspicious-node sort. -/
def insertSusp (x : SuspiciousNode) :
    List SuspiciousNode → List SuspiciousNode
  | [] => [x]
  | y :: ys =>
    if suspScore x ≤ suspScore y then y :: insertSusp x ys else x :: y :: ys

/-- Stable sort of suspicious nodes by combined score, descending
(list.sort with reverse=True is stable in Python). -/
def sortSusp (l : List SuspiciousNode) : List SuspiciousNode :=
  l.foldr insertSusp []

/-- Assembly of the network result from the computed pieces
(lines 127–152; both the populated and the empty-graph branch feed it). -/
def networkAssemble (now : Nat) (metrics : NetworkMetrics)
    (susp : List SuspiciousNode) (large : List (List String)) :
    NetworkResult :=
  { timestamp := now
    summary :=
      { network_metrics := metrics
        suspicious_entities_count := susp.length
        communities_detected := large.length
        risk_level :=
          if susp.length > 10 then "HIGH"
          else if susp.length > 5 then "MEDIUM" else "LOW" }
    suspicious_nodes := susp.take 10
    communities := large
    recommendations :=
      (if susp.length > 0 then
        ["Investigate top " ++ toString (min 5 susp.length) ++
          " high-centrality entities"] else []) ++
      (if large.length > 0 then
        ["Analyze " ++ toString large.length ++
          " large transaction communities"] else []) ++
      (if metrics.density > 3/10 then
        ["High network density indicates potential organized activity"]
       else [])
    visualizations :=
      ["network_graph", "centrality_distribution", "community_detection"] }

/-- The body of `network_analysis` (lines 52–152).  The only exception
that can escape it on a well-typed table is networkx's power-iteration
failure. -/
def networkOutcome (now : Nat) (t : Table) : Except String NetworkResult :=
  let es := buildGraph t now
  let nodes := graphNodes es
  let n := nodes.length
  let metrics : NetworkMetrics :=
    { total_nodes := n
      total_edges := es.length
      density := densityOf n es.length
      average_clustering := if n > 0 then averageClustering es nodes else 0 }
  if n > 0 then
    match pagerankOf es nodes with
    | none => .error "PowerIterationFailedConvergence"
    | some pr =>
      let infos := nodes.filterMap (fun v =>
        let dc := degreeCentrality es nodes v
        let bc := betweennessCentrality es nodes v
        let pv := prLookup pr v
        if dc > 1/10 || bc > 1/10 || pv > 1/20 then
          some { node_id := v, degree_centrality := dc,
                 betweenness_centrality := bc, pagerank := pv,
                 total_connections := degreeOf es v }
        else none)
      let comms := connectedComponents es nodes
      let large := comms.filter (fun c => c.length > 3)
      .ok (networkAssemble now metrics (sortSusp infos) large)
  else
    .ok (networkAssemble now metrics [] [])

/-- The `network_analysis` method: its outcome next to the post-call
table, which is the unchanged input — this module adds no columns. -/
def network_analysis (now : Nat) (t : Table) :
    Except String NetworkResult × Table :=
  (networkOutcome now t, t)

/-! ## Temporal pattern analysis (lines 154–271) -/

/-- Exact-rational rendering of a number interpolated into a message
(Python formats it with one decimal; the exact value is carried here, the
surrounding fixed text being what downstream filtering looks at). -/
def ratRepr (q : Rat) : String := toString q.num ++ "/" ++ toString q.den

/-- One anomaly record of the temporal module (type, severity,
description, count). -/
structure Anomaly where
  atype : String
  severity : String
  description : String
  count : Nat
deriving DecidableEq

/-- Column assignment on a data frame: replace the values of an existing
column in place, or append a new column at the end. -/
def setCol (cols : List (String × List Nat)) (n : String) (v : List Nat) :
    List (String × List Nat) :=
  if cols.any (fun p => p.1 = n) then
    cols.map (fun p => if p.1 = n then (n, v) else p)
  else cols ++ [(n, v)]

/-- Column access on the derived-column store: the values of the first
column with the given name. -/
def colLookup (cols : List (String × List Nat)) (n : String) :
    Option (List Nat) :=
  match cols with
  | [] => none
  | p :: rest => if p.1 = n then some p.2 else colLookup rest n

/-- Lines 167–168: when the table has no timestamp column, assign the
current time to every row. -/
def fillTimestamps (now : Nat) (t : Table) : Table :=
  if t.hasTimestamp then t
  else
    { t with rows := t.rows.map (fun r => { r with timestamp := now }),
             hasTimestamp := true }

/-- Lines 167–174: the in-place mutation the temporal module performs on
the input table before any statistic is computed — the timestamp fill
followed by the four derived columns. -/
def temporalMutate (now : Nat) (t : Table) : Table :=
  let t' := fillTimestamps now t
  let c1 := setCol t'.extraCols "hour" (t'.rows.map (fun r => hourOf r.timestamp))
  let c2 := setCol c1 "day_of_week" (t'.rows.map (fun r => dowOf r.timestamp))
  let c3 := setCol c2 "day_of_month" (t'.rows.map (fun r => domOf r.timestamp))
  let c4 := setCol c3 "month" (t'.rows.map (fun r => monthOf r.timestamp))
  { t' with extraCols := c4 }

/-- The unusual hours of line 183. -/
def unusualHours : List Nat := [0, 1, 2, 3, 4, 5, 22, 23]

/-- Stable insertion into a timestamp-sorted list. -/
def insertByTs (r : Row) : List Row → List Row
  | [] => [r]
  | x :: xs =>
    if x.timestamp ≤ r.timestamp then x :: insertByTs r xs
    else r :: x :: xs

/-- `sort_values('timestamp')`. -/
def sortByTs (l : List Row) : List Row := l.foldr insertByTs []

/-- Lines 193–200: the rows of the time-sorted table whose gap to the
previous row is positive and at most 300 seconds. -/
def rapidRows : List Row → List Row
  | [] => []
  | [_] => []
  | a :: b :: rest =>
    (if b.timestamp - a.timestamp ≤ 300 && 0 < b.timestamp - a.timestamp
     then [b] else []) ++ rapidRows (b :: rest)

/-- The temporal summary map (lines 254–261). -/
structure TemporalSummary where
  total_transactions : Nat
  unusual_hour_percentage : Rat
  velocity_abuse_percentage : Rat
  weekend_activity_percentage : Rat
  anomalies_detected : Nat
  risk_level : String
deriving DecidableEq

/-- The temporal `AnalyticsResult` (the hourly/daily/monthly aggregation
tables are pure reporting payload and are not carried). -/
structure TemporalResult where
  timestamp : Nat
  summary : TemporalSummary
  anomalies : List Anomaly
  rapid_transactions : List Row
  recommendations : List String
  visualizations : List String
deriving DecidableEq

/-- The body of `temporal_pattern_analysis` (lines 176–271), computed over
the already-mutated table. -/
def temporalOutcome (now : Nat) (t : Table) : Except String TemporalResult :=
  let t' := temporalMutate now t
  let rows := t'.rows
  if rows.length = 0 then .error "ZeroDivisionError"
  else
    let n : Rat := rows.length
    let unusual := rows.filter (fun r => unusualHours.contains (hourOf r.timestamp))
    let uhp := ((unusual.length : Rat) / n) * 100
    let rapid := rapidRows (sortByTs rows)
    let vap := ((rapid.length : Rat) / n) * 100
    let weekend := rows.filter
      (fun r => dowOf r.timestamp = 5 || dowOf r.timestamp = 6)
    let wkp := ((weekend.length : Rat) / n) * 100
    let anomalies : List Anomaly :=
      (if uhp > 15 then
        [{ atype := "unusual_hours", severity := "HIGH",
           description := ratRepr uhp ++
             "% of transactions occur during unusual hours",
           count := unusual.length }] else []) ++
      (if vap > 5 then
        [{ atype := "velocity_abuse", severity := "MEDIUM",
           description := ratRepr vap ++
             "% of transactions show rapid succession patterns",
           count := rapid.length }] else []) ++
      (if wkp > 40 then
        [{ atype := "weekend_activity", severity := "MEDIUM",
           description := "High weekend activity: " ++ ratRepr wkp ++
             "% of transactions",
           count := weekend.length }] else [])
    let recs :=
      (anomalies.map (fun a =>
        if a.severity = "HIGH" then
          "Immediate investigation required: " ++ a.description
        else "Monitor closely: " ++ a.description)) ++
      (if anomalies.length = 0 then
        ["Temporal patterns appear normal - continue routine monitoring"]
       else [])
    .ok
      { timestamp := now
        summary :=
          { total_transactions := rows.length
            unusual_hour_percentage := uhp
            velocity_abuse_percentage := vap
            weekend_activity_percentage := wkp
            anomalies_detected := anomalies.length
            risk_level :=
              if anomalies.any (fun a => a.severity = "HIGH") then "HIGH"
              else if anomalies.length > 0 then "MEDIUM" else "LOW" }
        anomalies := anomalies
        rapid_transactions := rapid.take 20
        recommendations := recs
        visualizations := ["hourly_heatmap", "daily_patterns", "velocity_timeline"] }

/-- The `temporal_pattern_analysis` method (lines 154–271): its outcome
next to the post-call table, which carries the in-place column additions
of lines 167–174 — they happen before the division that raises
`ZeroDivisionError` on an empty table, so they survive a failed call. -/
def temporal_pattern_analysis (now : Nat) (t : Table) :
    Except String TemporalResult × Table :=
  (temporalOutcome now t, temporalMutate now t)

/-! ## Geographic clustering analysis (lines 273–395) -/

/-- One anomaly record of the geographic module (its variable payloads are
carried in the description). -/
structure GeoAnomaly where
  atype : String
  severity : String
  description : String
deriving DecidableEq

/-- The geographic statistics summary (lines 379–386). -/
structure GeoStats where
  total_locations : Nat
  high_risk_percentage : Rat
  cross_border_percentage : Rat
  diversity_score : Rat
  anomalies_detected : Nat
  risk_level : String
deriving DecidableEq

/-- The geographic summary map: either the `{'error': ...}` map returned
when the location column is missing (lines 285–293) — which has no
`risk_level` key — or the statistics map. -/
inductive GeoSummary where
  | err (msg : String)
  | stats (s : GeoStats)
deriving DecidableEq

/-- The geographic `AnalyticsResult`. -/
structure GeoResult where
  timestamp : Nat
  summary : GeoSummary
  anomalies : List GeoAnomaly
  high_risk_transactions : List Row
  recommendations : List String
  visualizations : List String
deriving DecidableEq

/-- The high-risk location set of line 302. -/
def highRiskLocations : List String := ["Border_Area", "Unknown", "Offshore", "Tax_Haven"]

/-- The domestic location set of line 348. -/
def domesticLocations : List String :=
  ["Mumbai", "Delhi", "Bangalore", "Chennai", "Pune", "Hyderabad", "Kolkata", "Ahmedabad"]

/-- Distinct values of a list in first-appearance order (`nunique` /
`value_counts` support). -/
def distinctVals (l : List String) : List String :=
  l.foldl insertNode []

/-- Number of occurrences of a value. -/
def countVal (l : List String) (v : String) : Nat :=
  (l.filter (fun x => x = v)).length

/-- The top `value_counts` entry: the highest occurrence count (ties broken
by first appearance, as the concrete tie order is irrelevant downstream). -/
def topCount (l : List String) : Nat :=
  ((distinctVals l).map (countVal l)).foldl max 0

/-- The body of `geographic_clustering_analysis` (lines 273–395).  Without
a location column it returns the error-summary result; with one, the
`location_stats` aggregation (line 296) references the customer-id column
and raises `KeyError` when that is absent, and the high-risk percentage
(line 306) raises `ZeroDivisionError` on an empty table. -/
def geoOutcome (now : Nat) (t : Table) : Except String GeoResult :=
  if !t.hasLocation then
    .ok
      { timestamp := now
        summary := .err "No location data available"
        anomalies := []
        high_risk_transactions := []
        recommendations := ["Ensure location data is available for geographic analysis"]
        visualizations := [] }
  else if !t.hasCustomerId then .error "KeyError"
  else if t.rows.length = 0 then .error "ZeroDivisionError"
  else
    let rows := t.rows
    let n : Rat := rows.length
    let locs := rows.map (·.location)
    let highRisk := rows.filter (fun r => highRiskLocations.contains r.location)
    let hrp := ((highRisk.length : Rat) / n) * 100
    let uniqueLocations := (distinctVals locs).length
    let diversity := (uniqueLocations : Rat) / n
    let top := topCount locs
    let crossBorder := rows.filter (fun r => !domesticLocations.contains r.location)
    let cbp := ((crossBorder.length : Rat) / n) * 100
    let anomalies : List GeoAnomaly :=
      (if hrp > 10 then
        [{ atype := "high_risk_locations", severity := "HIGH",
           description := ratRepr hrp ++ "% of transactions from high-risk locations" }]
       else []) ++
      (if top > 0 && (top : Rat) / n > 1/2 then
        [{ atype := "location_concentration", severity := "MEDIUM",
           description := "Over 50% of transactions concentrated in the top location" }]
       else []) ++
      (if diversity < 1/20 && uniqueLocations < 5 then
        [{ atype := "low_diversity", severity := "MEDIUM",
           description := "Low geographic diversity: only " ++
             toString uniqueLocations ++ " unique locations" }]
       else []) ++
      (if cbp > 20 then
        [{ atype := "cross_border_activity", severity := "HIGH",
           description := "High cross-border activity: " ++ ratRepr cbp ++
             "% of transactions" }]
       else [])
    let recs :=
      (anomalies.map (fun a =>
        if a.severity = "HIGH" then "Priority investigation: " ++ a.description
        else "Enhanced monitoring: " ++ a.description)) ++
      (if anomalies.length = 0 then
        ["Geographic patterns appear normal - maintain standard monitoring"]
       else []) ++
      ["Consider implementing real-time location verification",
       "Cross-reference with known high-risk geographic zones"]
    .ok
      { timestamp := now
        summary := .stats
          { total_locations := uniqueLocations
            high_risk_percentage := hrp
            cross_border_percentage := cbp
            diversity_score := diversity
            anomalies_detected := anomalies.length
            risk_level :=
              if anomalies.any (fun a => a.severity = "HIGH") then "HIGH"
              else if anomalies.length > 0 then "MEDIUM" else "LOW" }
        anomalies := anomalies
        high_risk_transactions := highRisk.take 50
        recommendations := recs
        visualizations := ["location_heatmap", "geographic_distribution", "risk_zones_map"] }

/-- The `geographic_clustering_analysis` method: its outcome next to the
post-call table, which is the unchanged input — this module adds no
columns. -/
def geographic_clustering_analysis (now : Nat) (t : Table) :
    Except String GeoResult × Table :=
  (geoOutcome now t, t)

/-! ## Behavioral profiling (lines 397–560) -/

/-- Sample variance with one delta degree of freedom, the square of the
pandas `.std()`; callers return `none` (NaN) on singleton series. -/
def sampleVar (xs : List Rat) : Rat :=
  if xs.length ≤ 1 then 0
  else
    let m := xs.sum / (xs.length : Rat)
    ((xs.map (fun x => (x - m) * (x - m))).sum) / ((xs.length : Rat) - 1)

/-- Whether an amount is an exact multiple of 1000 (`amount % 1000 == 0`). -/
def isRoundAmount (a : Rat) : Bool := (a / 1000).den = 1

/-- Stable ascending insertion of a string (groupby sorts its keys). -/
def insertStr (s : String) : List String → List String
  | [] => [s]
  | x :: xs => if x ≤ s then x :: insertStr s xs else s :: x :: xs

/-- The distinct customer identifiers in ascending order, the index of the
`groupby('customer_id')` aggregation. -/
def sortedCustomers (rows : List Row) : List String :=
  (distinctVals (rows.map (·.customer_id))).foldr insertStr []

/-- The rows of one customer (line 422). -/
def customerRows (rows : List Row) (c : String) : List Row :=
  rows.filter (fun r => r.customer_id = c)

/-- Maximum timestamp of a row list (0 on the empty list). -/
def maxTs (cd : List Row) : Nat := (cd.map (·.timestamp)).foldl max 0

/-- Minimum timestamp of a row list (0 on the empty list). -/
def minTs : List Row → Nat
  | [] => 0
  | r :: rs => (rs.map (·.timestamp)).foldl min r.timestamp

/-- Line 425: `(timestamp.max() - timestamp.min()).days`. -/
def dateSpanDays (cd : List Row) : Nat := (maxTs cd - minTs cd) / 86400

/-- Line 426: `velocity = len(customer_data) / max(date_range, 1)`. -/
def velocityOf (cd : List Row) : Rat :=
  (cd.length : Rat) / ((max (dateSpanDays cd) 1 : Nat) : Rat)

/-- One row of the behavioral feature frame (lines 438–449).  The source
stores the coefficient of variation `std/mean` and the hour standard
deviation; their squares are carried here (`none` for the NaN a singleton
series produces), the values being opaque payload downstream. -/
structure BehavioralFeature where
  customer_id : String
  transaction_count : Nat
  total_amount : Rat
  avg_amount : Rat
  amount_variance_sq : Option Rat
  velocity : Rat
  round_amount_percentage : Rat
  location_diversity : Nat
  payment_method_diversity : Nat
  hour_variance_sq : Option Rat
deriving DecidableEq

/-- Line 429: `std/mean if mean > 0 else 0`, NaN when the std is NaN. -/
def amountCvSq (cd : List Row) : Option Rat :=
  let amounts := cd.map (·.amount)
  let m := amounts.sum / (cd.length : Rat)
  if m > 0 then
    if cd.length ≤ 1 then none
    else some (sampleVar amounts / (m * m))
  else some 0

/-- The behavioral feature record of one customer (lines 421–449). -/
def featureFor (rows : List Row) (c : String) : BehavioralFeature :=
  let cd := customerRows rows c
  let amounts := cd.map (·.amount)
  { customer_id := c
    transaction_count := cd.length
    total_amount := amounts.sum
    avg_amount := amounts.sum / (cd.length : Rat)
    amount_variance_sq := amountCvSq cd
    velocity := velocityOf cd
    round_amount_percentage :=
      (((cd.filter (fun r => isRoundAmount r.amount)).length : Rat) /
        (cd.length : Rat)) * 100
    location_diversity := (distinctVals (cd.map (·.location))).length
    payment_method_diversity := (distinctVals (cd.map (·.payment_method))).length
    hour_variance_sq :=
      if cd.length ≤ 1 then none
      else some (sampleVar (cd.map (fun r => ((hourOf r.timestamp : Nat) : Rat)))) }

/-- The full behavioral feature frame, one record per customer. -/
def behavioralFeatures (rows : List Row) : List BehavioralFeature :=
  (sortedCustomers rows).map (featureFor rows)

/-- The six-column matrix handed to the outlier detector (lines 455–459),
missing values filled with 0. -/
def featureVector (p : BehavioralFeature) : List Rat :=
  [(p.amount_variance_sq).getD 0, p.velocity, p.round_amount_percentage,
   (p.location_diversity : Rat), (p.payment_method_diversity : Rat),
   (p.hour_variance_sq).getD 0]

/-- Coordinate-wise mean of a feature matrix. -/
def meanVec (data : List (List Rat)) : List Rat :=
  match data with
  | [] => []
  | d :: _ =>
    (List.range d.length).map
      (fun i => ((data.map (fun p => p.getD i 0)).sum) / (data.length : Rat))

/-- L1 distance of a point from a reference vector. -/
def l1Score (m p : List Rat) : Rat :=
  ((p.zip m).map (fun q => |q.1 - q.2|)).sum

/-- Modelled from the spec: the `StandardScaler().fit_transform` followed
by `IsolationForest(contamination=0.1, random_state=42).fit_predict` of
lines 462–465 is third-party library code whose internals are outside this
repository.  The spec relies only on it being a deterministic function of
the feature matrix, re-fitted within each call with a fixed seed and a
fixed contamination rate of ~10%; this executable stand-in provides exactly
that, flagging the ~10% most isolated points by L1 distance from the
feature mean (`true` marks the -1 anomaly label). -/
def outlierFlags (data : List (List Rat)) : List Bool :=
  let m := meanVec data
  let scores := data.map (l1Score m)
  let k := max 1 (data.length / 10)
  (List.range data.length).map (fun i =>
    let si := scores.getD i 0
    ((scores.filter (fun s => si < s)).length +
      ((scores.take i).filter (fun s => s = si)).length) < k)

/-- The mutable state the engine object carries across calls: the fit state
of the shared scaler/outlier-detector pair (`self.scaler`,
`self.isolation_forest`), re-fitted from scratch whenever the behavioral
module fits (line 462's `fit_transform` / line 465's `fit_predict`). -/
structure EngineState where
  scalerFit : Option (List (List Rat))
deriving DecidableEq

/-- One behavioral alert record (lines 497–526). -/
structure BehavioralAlert where
  atype : String
  severity : String
  description : String
  customers : List String
deriving DecidableEq

/-- The behavioral summary map (lines 545–550). -/
structure BehavioralSummary where
  total_customers : Nat
  suspicious_customers : Nat
  behavioral_alerts : Nat
  risk_level : String
deriving DecidableEq

/-- The behavioral `AnalyticsResult` (the payment-method and
merchant-category aggregation tables are pure reporting payload and are
not carried). -/
structure BehavioralResult where
  timestamp : Nat
  summary : BehavioralSummary
  features : List BehavioralFeature
  suspicious : List BehavioralFeature
  alerts : List BehavioralAlert
  recommendations : List String
  visualizations : List String
deriving DecidableEq

/-- The body of `behavioral_profiling` (lines 397–560).  The per-customer
aggregation (lines 410–417) references the payment-method,
merchant-category, location and timestamp columns and so raises `KeyError`
when location or timestamp is absent; without a customer-id column the
payment-method aggregation (lines 479–482) still names the customer-id
column in its aggregation map and raises `KeyError`.  The incoming fit
state of the shared scaler/detector pair is never read: both are re-fitted
within the call. -/
def behavioralOutcome (now : Nat) (t : Table) : Except String BehavioralResult :=
  if !(t.hasCustomerId && t.hasLocation && t.hasTimestamp) then
    .error "KeyError"
  else
    let feats := behavioralFeatures t.rows
    let fitted := feats.length > 5
    let flags := if fitted then outlierFlags (feats.map featureVector) else []
    let suspicious :=
      if fitted then ((feats.zip flags).filter (·.2)).map (·.1) else []
    let alerts : List BehavioralAlert :=
      if feats.length > 0 then
        (let hv := feats.filter (fun p => p.velocity > 10)
         if hv.length > 0 then
          [{ atype := "high_velocity", severity := "HIGH",
             description := toString hv.length ++
               " customers show high transaction velocity",
             customers := (hv.map (·.customer_id)).take 10 }] else []) ++
        (let ra := feats.filter (fun p => p.round_amount_percentage > 50)
         if ra.length > 0 then
          [{ atype := "round_amounts", severity := "MEDIUM",
             description := toString ra.length ++
               " customers prefer round amounts (possible structuring)",
             customers := (ra.map (·.customer_id)).take 10 }] else []) ++
        (let ld := feats.filter (fun p =>
            p.location_diversity ≤ 1 && p.payment_method_diversity ≤ 1 &&
              p.transaction_count > 5)
         if ld.length > 0 then
          [{ atype := "low_diversity", severity := "MEDIUM",
             description := toString ld.length ++
               " customers show low behavioral diversity",
             customers := (ld.map (·.customer_id)).take 10 }] else [])
      else []
    let recs :=
      (alerts.map (fun a =>
        if a.severity = "HIGH" then "Immediate review required: " ++ a.description
        else "Enhanced monitoring: " ++ a.description)) ++
      (if alerts.length = 0 then ["Behavioral patterns appear normal"] else []) ++
      ["Implement continuous behavioral monitoring",
       "Consider machine learning-based behavior prediction"]
    .ok
      { timestamp := now
        summary :=
          { total_customers := feats.length
            suspicious_customers := suspicious.length
            behavioral_alerts := alerts.length
            risk_level :=
              if alerts.any (fun a => a.severity = "HIGH") then "HIGH"
              else if alerts.length > 0 then "MEDIUM" else "LOW" }
        features := feats
        suspicious := suspicious
        alerts := alerts
        recommendations := recs
        visualizations := ["behavior_clusters", "velocity_distribution", "diversity_matrix"] }

/-- The engine state after a behavioral call: the scaler/detector pair is
refit from the call's own feature matrix when the module fits (more than 5
profiles on a successful run); otherwise the previous state survives. -/
def behavioralNewState (st : EngineState) (t : Table) : EngineState :=
  if t.hasCustomerId && t.hasLocation && t.hasTimestamp &&
      (behavioralFeatures t.rows).length > 5 then
    { scalerFit := some ((behavioralFeatures t.rows).map featureVector) }
  else st

/-- The `behavioral_profiling` method: its outcome next to the post-call
table (the unchanged input — this module adds no columns) and the engine
state after the call. -/
def behavioral_profiling (st : EngineState) (now : Nat) (t : Table) :
    (Except String BehavioralResult × Table) × EngineState :=
  ((behavioralOutcome now t, t), behavioralNewState st t)

/-! ## Predictive risk modeling (lines 562–709) -/

/-- The payment-method risk lookup table (lines 593–597), default 0.5. -/
def paymentRiskScore (pm : String) : Rat :=
  if pm = "UPI" then 1/10
  else if pm = "Card" then 2/10
  else if pm = "Net_Banking" then 3/10
  else if pm = "IMPS" then 4/10
  else if pm = "NEFT" then 6/10
  else if pm = "RTGS" then 8/10
  else if pm = "Cash_Deposit" then 9/10
  else 1/2

/-- The merchant-category risk lookup table (lines 600–605), default 0.5. -/
def merchantRiskScore (mc : String) : Rat :=
  if mc = "Grocery" then 1/10
  else if mc = "Food" then 1/10
  else if mc = "Transport" then 2/10
  else if mc = "Retail" then 2/10
  else if mc = "Healthcare" then 3/10
  else if mc = "Education" then 3/10
  else if mc = "Entertainment" then 4/10
  else if mc = "Investment" then 7/10
  else if mc = "Real_Estate" then 8/10
  else if mc = "Gold_Jewelry" then 9/10
  else 1/2

/-- The unusual-hour set of the predictive module (line 581, narrower than
the temporal module's). -/
def predictiveUnusualHours : List Nat := [0, 1, 2, 3, 22, 23]

/-- The high-risk location set of the predictive module (line 589, without
Tax_Haven). -/
def predictiveHighRiskLocations : List String := ["Border_Area", "Unknown", "Offshore"]

/-- Stable ascending insertion of a rational. -/
def insertRat (x : Rat) : List Rat → List Rat
  | [] => [x]
  | y :: ys => if y ≤ x then y :: insertRat x ys else x :: y :: ys

/-- Ascending sort of rationals. -/
def sortRats (l : List Rat) : List Rat := l.foldr insertRat []

/-- The 0.9 quantile with pandas' linear interpolation:
position `(n-1)·0.9` between the order statistics. -/
def quantile90 (xs : List Rat) : Option Rat :=
  let s := sortRats xs
  match s with
  | [] => none
  | _ =>
    let n := s.length
    let k := ((n - 1) * 9) / 10
    let frac : Rat := (((n - 1) * 9 : Nat) : Rat) / 10 - (k : Rat)
    let a := s.getD k 0
    let b := s.getD (min (k + 1) (n - 1)) 0
    some (a + frac * (b - a))

/-- Lines 607–621: the composite score — each of the six risk factors
multiplied by its fixed weight, the factor order being
[unusual-hour, round-amount, high-amount, high-risk-location,
payment-risk, merchant-risk] against weights
[0.15, 0.10, 0.20, 0.25, 0.15, 0.15], the sum then scaled by 100. -/
def weightedRiskScore (u r h l : Bool) (p m : Rat) : Rat :=
  ((if u then 1 else 0) * (15/100) + (if r then 1 else 0) * (10/100) +
    (if h then 1 else 0) * (20/100) + (if l then 1 else 0) * (25/100) +
    p * (15/100) + m * (15/100)) * 100

/-- Lines 623–628: `pd.cut` with bins [0, 25, 50, 75, 100], right-closed
and left-open; a score outside every bin gets the NaN label `none`. -/
def classifyRiskLevel (s : Rat) : Option String :=
  if 0 < s ∧ s ≤ 25 then some "LOW"
  else if 25 < s ∧ s ≤ 50 then some "MEDIUM"
  else if 50 < s ∧ s ≤ 75 then some "HIGH"
  else if 75 < s ∧ s ≤ 100 then some "CRITICAL"
  else none

/-- One scored transaction of the predictive feature frame. -/
structure ScoredRow where
  row : Row
  predicted_risk_score : Rat
  predicted_risk_level : Option String
deriving DecidableEq

/-- Lines 577–628 applied to one row, given the batch 90th percentile. -/
def scoreRow (q90 : Rat) (r : Row) : ScoredRow :=
  let score := weightedRiskScore
    (predictiveUnusualHours.contains (hourOf r.timestamp))
    (isRoundAmount r.amount)
    (q90 < r.amount)
    (predictiveHighRiskLocations.contains r.location)
    (paymentRiskScore r.payment_method)
    (merchantRiskScore r.merchant_category)
  { row := r, predicted_risk_score := score,
    predicted_risk_level := classifyRiskLevel score }

/-- Mean of a list of rationals (pandas `.mean()`; callers keep the list
nonempty). -/
def meanR (l : List Rat) : Rat := l.sum / (l.length : Rat)

/-- Stable ascending insertion of a natural number. -/
def insertNat (x : Nat) : List Nat → List Nat
  | [] => [x]
  | y :: ys => if y ≤ x then y :: insertNat x ys else x :: y :: ys

/-- Ascending sort of naturals. -/
def sortNats (l : List Nat) : List Nat := l.foldr insertNat []

/-- Distinct day keys of the scored rows in ascending order (the groupby
index of line 638). -/
def scoredDates (scored : List ScoredRow) : List Nat :=
  sortNats ((scored.map (fun s => dateOf s.row.timestamp)).foldl
    (fun acc d => if acc.contains d then acc else acc ++ [d]) [])

/-- Lines 634–649: the risk trend — with more than 10 rows and more than 3
distinct days, the mean of the last 3 daily mean scores minus that of the
first 3; direction by the ±5 thresholds. -/
def trendOf (scored : List ScoredRow) : String :=
  if scored.length > 10 then
    let dates := scoredDates scored
    let daily := dates.map (fun d =>
      meanR ((scored.filter (fun s => dateOf s.row.timestamp = d)).map
        (·.predicted_risk_score)))
    if daily.length > 3 then
      let recent := meanR (daily.drop (daily.length - 3)) - meanR (daily.take 3)
      if recent > 5 then "INCREASING"
      else if recent < -5 then "DECREASING"
      else "STABLE"
    else "INSUFFICIENT_DATA"
  else "INSUFFICIENT_DATA"

/-- The predictive summary map (lines 692–698). -/
structure PredictiveSummary where
  total_transactions_analyzed : Nat
  high_risk_count : Nat
  average_risk_score : Rat
  risk_trend : String
  model_accuracy : Rat
  risk_level : String
deriving DecidableEq

/-- The predictive `AnalyticsResult` (risk distribution counts carried for
the four labels; the simulated model metrics are constants). -/
structure PredictiveResult where
  timestamp : Nat
  summary : PredictiveSummary
  scored : List ScoredRow
  high_risk_transactions : List ScoredRow
  recommendations : List String
  visualizations : List String
deriving DecidableEq

/-- The body of `predictive_risk_modeling` (lines 562–709).  It raises
`KeyError` without a timestamp (line 578) or location (line 590) column
and `ZeroDivisionError` on the empty table (line 698). -/
def predictiveOutcome (now : Nat) (t : Table) : Except String PredictiveResult :=
  if !t.hasTimestamp then .error "KeyError"
  else if !t.hasLocation then .error "KeyError"
  else if t.rows.length = 0 then .error "ZeroDivisionError"
  else
    let q90 := (quantile90 (t.rows.map (·.amount))).getD 0
    let scored := t.rows.map (scoreRow q90)
    let high := scored.filter (fun s =>
      s.predicted_risk_level = some "HIGH" ∨
        s.predicted_risk_level = some "CRITICAL")
    let trend := trendOf scored
    let recs :=
      (if high.length > 0 then
        ["Immediate attention: " ++ toString high.length ++
          " high/critical risk transactions identified"] else []) ++
      (if trend = "INCREASING" then
        ["Risk trend is increasing - consider implementing additional controls"]
       else []) ++
      ["Deploy real-time risk scoring for all incoming transactions",
       "Implement automated alerts for transactions scoring above 75",
       "Regular model retraining recommended every 30 days"]
    .ok
      { timestamp := now
        summary :=
          { total_transactions_analyzed := scored.length
            high_risk_count := high.length
            average_risk_score := meanR (scored.map (·.predicted_risk_score))
            risk_trend := trend
            model_accuracy := 94/100
            risk_level :=
              if (high.length : Rat) / (scored.length : Rat) > 1/10 then "HIGH"
              else if high.length > 0 then "MEDIUM" else "LOW" }
        scored := scored
        high_risk_transactions := high.take 50
        recommendations := recs
        visualizations := ["risk_distribution", "trend_analysis", "feature_importance"] }

/-- The `predictive_risk_modeling` method: its outcome next to the
post-call table, which is the unchanged input — the module works on a copy
(line 575) and never mutates the input. -/
def predictive_risk_modeling (now : Nat) (t : Table) :
    Except String PredictiveResult × Table :=
  (predictiveOutcome now t, t)

/-! ## Comprehensive report aggregator (lines 711–803) -/

/-- Risk-level access mirroring `'risk_level' in result.summary` for the
geographic module, whose missing-location summary has no such key. -/
def geoRiskLevel? (r : GeoResult) : Option String :=
  match r.summary with
  | .err _ => none
  | .stats s => some s.risk_level

/-- Line 764: `{'LOW': 25, 'MEDIUM': 50, 'HIGH': 75, 'CRITICAL': 100}.get(risk_level, 50)`. -/
def riskScoreOf (lvl : String) : Rat :=
  if lvl = "LOW" then 25
  else if lvl = "MEDIUM" then 50
  else if lvl = "HIGH" then 75
  else if lvl = "CRITICAL" then 100
  else 50

/-- Line 793: a recommendation is a priority action when it contains
"immediate" or "priority" case-insensitively. -/
def priorityRec (s : String) : Bool :=
  decide ("immediate".toList <:+: s.toLower.toList) ||
    decide ("priority".toList <:+: s.toLower.toList)

/-- The executive summary map (lines 786–794). -/
structure ExecutiveSummary where
  analysis_timestamp : Nat
  total_transactions_analyzed : Nat
  analyses_completed : Nat
  overall_risk_score : Rat
  overall_risk_level : String
  total_recommendations : Nat
  priority_actions : List String
deriving DecidableEq

/-- The map returned by `comprehensive_analysis_report`: one optional
entry per module — a module whose call raised has no entry at all — plus
the executive summary under its reserved key. -/
structure Report where
  network? : Option NetworkResult
  temporal? : Option TemporalResult
  geographic? : Option GeoResult
  behavioral? : Option BehavioralResult
  predictive? : Option PredictiveResult
  executive_summary : ExecutiveSummary
deriving DecidableEq

/-- The `comprehensive_analysis_report` method (lines 711–803): each module
runs inside its own try/except on the shared table object (so the temporal
module's in-place column additions are visible to the later modules), a
failed module is skipped, and the executive summary averages the risk
scores of the modules that produced a `risk_level`. -/
def comprehensive_analysis_report (st : EngineState) (now : Nat) (t : Table) :
    Report :=
  let n := network_analysis now t
  let tp := temporal_pattern_analysis now n.2
  let g := geographic_clustering_analysis now tp.2
  let b := behavioral_profiling st now g.2
  let p := predictive_risk_modeling now b.1.2
  let lvls : List String :=
    (match n.1 with | .ok r => [r.summary.risk_level] | .error _ => []) ++
    (match tp.1 with | .ok r => [r.summary.risk_level] | .error _ => []) ++
    (match g.1 with
      | .ok r => (geoRiskLevel? r).toList
      | .error _ => []) ++
    (match b.1.1 with | .ok r => [r.summary.risk_level] | .error _ => []) ++
    (match p.1 with | .ok r => [r.summary.risk_level] | .error _ => [])
  let recsAll : List String :=
    (match n.1 with | .ok r => r.recommendations | .error _ => []) ++
    (match tp.1 with | .ok r => r.recommendations | .error _ => []) ++
    (match g.1 with | .ok r => r.recommendations | .error _ => []) ++
    (match b.1.1 with | .ok r => r.recommendations | .error _ => []) ++
    (match p.1 with | .ok r => r.recommendations | .error _ => [])
  let scores := lvls.map riskScoreOf
  let score : Rat := if scores.isEmpty then 0 else scores.sum / (scores.length : Rat)
  let lvl : String :=
    if scores.isEmpty then "UNKNOWN"
    else if score ≥ 75 then "CRITICAL"
    else if score ≥ 50 then "HIGH"
    else if score ≥ 25 then "MEDIUM"
    else "LOW"
  let completed :=
    (if n.1.toOption.isSome then 1 else 0) +
    (if tp.1.toOption.isSome then 1 else 0) +
    (if g.1.toOption.isSome then 1 else 0) +
    (if b.1.1.toOption.isSome then 1 else 0) +
    (if p.1.toOption.isSome then 1 else 0)
  { network? := n.1.toOption
    temporal? := tp.1.toOption
    geographic? := g.1.toOption
    behavioral? := b.1.1.toOption
    predictive? := p.1.toOption
    executive_summary :=
      { analysis_timestamp := now
        total_transactions_analyzed := p.2.rows.length
        analyses_completed := completed
        overall_risk_score := score
        overall_risk_level := lvl
        total_recommendations := recsAll.length
        priority_actions := (recsAll.filter priorityRec).take 5 } }

/-! ## Specification-side aggregator definitions (spec §4.7)

These follow the spec's words, to be compared with the implementation. -/

/-- Spec side: the ordinal score of a module risk level — LOW=25,
MEDIUM=50, HIGH=75, CRITICAL=100. -/
def specOrdinalScore (lvl : String) : Rat :=
  if lvl = "LOW" then 25
  else if lvl = "MEDIUM" then 50
  else if lvl = "HIGH" then 75
  else if lvl = "CRITICAL" then 100
  else 50

/-- Spec side: re-bucketing of the mean — ≥75 CRITICAL, ≥50 HIGH,
≥25 MEDIUM, else LOW. -/
def specBucket (s : Rat) : String :=
  if s ≥ 75 then "CRITICAL"
  else if s ≥ 50 then "HIGH"
  else if s ≥ 25 then "MEDIUM"
  else "LOW"

/-- Spec side: the risk levels of the modules present in a report, in
module order, counting only summaries that carry a risk level. -/
def reportRiskLevels (rep : Report) : List String :=
  (rep.network?.toList.map (fun r => r.summary.risk_level)) ++
  (rep.temporal?.toList.map (fun r => r.summary.risk_level)) ++
  (rep.geographic?.toList.flatMap (fun r => (geoRiskLevel? r).toList)) ++
  (rep.behavioral?.toList.map (fun r => r.summary.risk_level)) ++
  (rep.predictive?.toList.map (fun r => r.summary.risk_level))

/-! ## Projection helpers on module outcomes -/

/-- Summary of a network outcome, when the module succeeded. -/
def netSummary? : Except String NetworkResult → Option NetworkSummary
  | .ok r => some r.summary
  | .error _ => none

/-- Summary of a temporal outcome, when the module succeeded. -/
def tempSummary? : Except String TemporalResult → Option TemporalSummary
  | .ok r => some r.summary
  | .error _ => none

/-- Statistics summary of a geographic outcome, when the module succeeded
with a statistics (not error) summary. -/
def geoStats? : Except String GeoResult → Option GeoStats
  | .ok r => match r.summary with
    | .stats s => some s
    | .err _ => none
  | .error _ => none

/-- Summary of a behavioral outcome, when the module succeeded. -/
def behSummary? : Except String BehavioralResult → Option BehavioralSummary
  | .ok r => some r.summary
  | .error _ => none

/-- Summary of a predictive outcome, when the module succeeded. -/
def predSummary? : Except String PredictiveResult → Option PredictiveSummary
  | .ok r => some r.summary
  | .error _ => none

/-- Communities-detected summary entry of a network outcome. -/
def netCommunities? (x : Except String NetworkResult) : Option Nat :=
  (netSummary? x).map (·.communities_detected)

/-- Total-nodes summary entry of a network outcome. -/
def netTotalNodes? (x : Except String NetworkResult) : Option Nat :=
  (netSummary? x).map (·.network_metrics.total_nodes)

/-! ## Concrete scenario inputs -/

/-- A plain, fully-populated transaction row. -/
def baseRow : Row :=
  { transaction_id := "T1", customer_id := "C1", merchant_name := "M1",
    merchant_category := "Retail", payment_method := "UPI", amount := 100,
    location := "Mumbai", timestamp := 0 }

/-- A star-table row: customer `c` paying the shared merchant. -/
def starRow (c : String) : Row := { baseRow with customer_id := c }

/-- The spec §8 star scenario: 3 transactions, 3 distinct customers, one
shared merchant, no other connections. -/
def starTable : Table :=
  { rows := [starRow "C1", starRow "C2", starRow "C3"],
    hasCustomerId := true, hasTimestamp := true, hasLocation := true,
    extraCols := [] }

/-- The empty transaction table (all columns declared). -/
def emptyTable : Table :=
  { rows := [], hasCustomerId := true, hasTimestamp := true,
    hasLocation := true, extraCols := [] }

/-- A one-row table. -/
def oneRowTable : Table :=
  { rows := [baseRow], hasCustomerId := true, hasTimestamp := true,
    hasLocation := true, extraCols := [] }

/-- A fresh engine: no scaler/detector fit state yet (`__init__`). -/
def freshEngine : EngineState := { scalerFit := none }

/-- The summary risk levels an individual module can produce: no summary
at all (module failed or, for the geographic module, returned the
missing-location summary without a risk-level key), or LOW / MEDIUM /
HIGH. -/
def allowedModuleLevels : List (Option String) :=
  [none, some "LOW", some "MEDIUM", some "HIGH"]

/-- A table with a repeated (customer, merchant) pair: two C1→M1
transactions and one C2→M1 transaction. -/
def dupTable : Table :=
  { rows := [starRow "C1", starRow "C1", starRow "C2"],
    hasCustomerId := true, hasTimestamp := true, hasLocation := true,
    extraCols := [] }

/-- The single C1→M1 edge of `dupTable`'s graph: both transactions
accumulated onto one edge. -/
def dupEdge : Edge :=
  { source := "C1", target := "M1", weight := 200, transaction_count := 2,
    timestamps := [0, 0] }

/-- The behavioral profile of the single customer of `oneRowTable`:
exactly one transaction, so the day span is 0 and the velocity is
1 / max(0, 1) = 1. -/
def oneRowFeature : BehavioralFeature :=
  { customer_id := "C1", transaction_count := 1, total_amount := 100,
    avg_amount := 100, amount_variance_sq := none, velocity := 1,
    round_amount_percentage := 0, location_diversity := 1,
    payment_method_diversity := 1, hour_variance_sq := none }

/-! ## Helper lemmas -/

theorem colLookup_append (c d : List (String × List Nat)) (m : String) :
    colLookup (c ++ d) m =
      match colLookup c m with
      | some v => some v
      | none => colLookup d m := by
  induction c with
  | nil => simp [colLookup]
  | cons p c ih =>
    by_cases hp : p.1 = m
    · simp [colLookup, hp]
    · simp only [List.cons_append, colLookup, if_neg hp]
      exact ih

theorem colLookup_none_of_any_false (c : List (String × List Nat))
    (n : String) (h : c.any (fun p => decide (p.1 = n)) = false) :
    colLookup c n = none := by
  induction c with
  | nil => rfl
  | cons p c ih =>
    simp only [List.any_cons, Bool.or_eq_false_iff, decide_eq_false_iff_not] at h
    simp only [colLookup, if_neg h.1]
    exact ih (by simp [h.2])

theorem colLookup_map_replace_same (c : List (String × List Nat))
    (n : String) (v : List Nat)
    (h : c.any (fun p => decide (p.1 = n)) = true) :
    colLookup (c.map (fun p => if p.1 = n then (n, v) else p)) n = some v := by
  induction c with
  | nil => simp at h
  | cons p c ih =>
    simp only [List.any_cons, Bool.or_eq_true, decide_eq_true_eq] at h
    by_cases hp : p.1 = n
    · simp [colLookup, hp]
    · have h' : c.any (fun p => decide (p.1 = n)) = true := by
        rcases h with h | h
        · exact absurd h hp
        · exact h
      simp only [List.map_cons, if_neg hp, colLookup]
      exact ih h'

theorem colLookup_map_replace_other (c : List (String × List Nat))
    (n m : String) (v : List Nat) (hnm : n ≠ m) :
    colLookup (c.map (fun p => if p.1 = n then (n, v) else p)) m =
      colLookup c m := by
  induction c with
  | nil => rfl
  | cons p c ih =>
    by_cases hp : p.1 = n
    · have hm : ¬ (n = m) := hnm
      simp only [List.map_cons, if_pos hp, colLookup, if_neg hm]
      rw [if_neg (by rw [hp]; exact hm)]
      exact ih
    · simp only [List.map_cons, if_neg hp, colLookup]
      by_cases hq : p.1 = m
      · simp [hq]
      · rw [if_neg hq, if_neg hq]
        exact ih

theorem colLookup_setCol_same (c : List (String × List Nat)) (n : String)
    (v : List Nat) : colLookup (setCol c n v) n = some v := by
  unfold setCol
  split
  · rename_i h
    exact colLookup_map_replace_same c n v h
  · rename_i h
    rw [colLookup_append]
    rw [colLookup_none_of_any_false c n
      (by simp only [Bool.not_eq_true] at h; exact h)]
    simp [colLookup]

theorem colLookup_setCol_other (c : List (String × List Nat)) (n m : String)
    (v : List Nat) (hnm : n ≠ m) :
    colLookup (setCol c n v) m = colLookup c m := by
  unfold setCol
  split
  · exact colLookup_map_replace_other c n m v hnm
  · rw [colLookup_append]
    cases hc : colLookup c m with
    | some w => simp
    | none => simp [colLookup, hnm]

theorem temporalMutate_hasCustomerId (now : Nat) (t : Table) :
    (temporalMutate now t).hasCustomerId = t.hasCustomerId := by
  unfold temporalMutate fillTimestamps
  split <;> rfl

theorem temporalMutate_hasLocation (now : Nat) (t : Table) :
    (temporalMutate now t).hasLocation = t.hasLocation := by
  unfold temporalMutate fillTimestamps
  split <;> rfl

theorem temporalMutate_hasTimestamp (now : Nat) (t : Table) :
    (temporalMutate now t).hasTimestamp = true := by
  unfold temporalMutate fillTimestamps
  split
  · rename_i h; exact h
  · rfl

theorem temporalMutate_rows (now : Nat) (t : Table) :
    (temporalMutate now t).rows = (fillTimestamps now t).rows := by
  unfold temporalMutate
  rfl

theorem temporalMutate_rows_length (now : Nat) (t : Table) :
    (temporalMutate now t).rows.length = t.rows.length := by
  rw [temporalMutate_rows]
  unfold fillTimestamps
  split
  · rfl
  · simp

theorem pct_bounds (a b : Nat) (hab : a ≤ b) (hb : 0 < b) :
    0 ≤ ((a : Rat) / (b : Rat)) * 100 ∧ ((a : Rat) / (b : Rat)) * 100 ≤ 100 := by
  have hb' : (0 : Rat) < (b : Rat) := by exact_mod_cast hb
  have hab' : (a : Rat) ≤ (b : Rat) := by exact_mod_cast hab
  constructor
  · positivity
  · rw [div_mul_eq_mul_div, div_le_iff₀ hb']
    nlinarith

theorem insertByTs_length (r : Row) (l : List Row) :
    (insertByTs r l).length = l.length + 1 := by
  induction l with
  | nil => rfl
  | cons x xs ih =>
    unfold insertByTs
    split
    · simpa using ih
    · rfl

theorem sortByTs_length (l : List Row) : (sortByTs l).length = l.length := by
  induction l with
  | nil => rfl
  | cons x xs ih =>
    show (insertByTs x (sortByTs xs)).length = xs.length + 1
    rw [insertByTs_length, ih]

theorem rapidRows_length_le : ∀ l : List Row, (rapidRows l).length ≤ l.length
  | [] => by simp [rapidRows]
  | [_] => by simp [rapidRows]
  | a :: b :: rest => by
    unfold rapidRows
    have h := rapidRows_length_le (b :: rest)
    split
    · simpa using Nat.succ_le_succ h
    · simpa using Nat.le_succ_of_le h

/-! ## Claim C2: the star-graph community scenario -/

/-- Claim C2 (counterexample): the claim asserts that on the 3-customer /
1-merchant star table `communities_detected = 0`; the code computes 1 —
the single connected component has the 4 nodes of the star, which exceeds
the `> 3` membership threshold, so it is counted as a large community. -/
theorem c2_star_communities_not_zero :
    netCommunities? (networkOutcome 0 starTable) = some 1 ∧
      ¬ netCommunities? (networkOutcome 0 starTable) = some 0 := by
  with_unfolding_all decide

/-- Claim C2 (amended): on the star table, network analysis reports
`communities_detected = 1` (the single component has 4 members, more than
3) while `total_nodes = 4`. -/
theorem c2_star_communities_one_nodes_four :
    netCommunities? (networkOutcome 0 starTable) = some 1 ∧
      netTotalNodes? (networkOutcome 0 starTable) = some 4 := by
  with_unfolding_all decide

/-! ## Claim C3: the composite-score scenario -/

/-- Claim C3 (counterexample): with all four binary factors set, payment
risk 0.8 and merchant risk 0.9, the claim asserts a score of 82.5; the
weighted sum `(1·0.15 + 1·0.10 + 1·0.20 + 1·0.25 + 0.8·0.15 + 0.9·0.15)·100`
the code computes is 95.5. -/
theorem c3_score_is_not_82_5 :
    weightedRiskScore true true true true (8/10) (9/10) ≠ 165/2 ∧
      weightedRiskScore true true true true (8/10) (9/10) = 191/2 := by
  with_unfolding_all decide

/-- Claim C3 (amended): the scenario's composite score is 95.5, and the
right-closed bin edges classify it CRITICAL. -/
theorem c3_score_95_5_critical :
    weightedRiskScore true true true true (8/10) (9/10) = 191/2 ∧
      classifyRiskLevel (weightedRiskScore true true true true (8/10) (9/10)) =
        some "CRITICAL" := by
  with_unfolding_all decide

/-! ## Claim C6: mutation of the input table -/

/-- Claim C6 (counterexample): the claim asserts no analyzer mutates the
input table; `temporal_pattern_analysis` adds the derived hour /
day-of-week / day-of-month / month columns to it in place, so the
post-call table differs from the input. -/
theorem c6_temporal_mutates_input :
    (temporal_pattern_analysis 0 starTable).2 ≠ starTable := by
  with_unfolding_all decide

/-- Claim C6 (amended): network, geographic, behavioral and predictive
analysis leave the input table exactly as it was — same rows, same
columns; temporal analysis preserves the rows whenever a timestamp column
exists but adds the four derived columns hour, day-of-week, day-of-month
and month (computed from the — possibly current-time-filled — timestamps)
to the table in place, leaving the other columns in place. -/
theorem c6_analyzer_frame (st : EngineState) (now : Nat) (t : Table) :
    (network_analysis now t).2 = t ∧
    (geographic_clustering_analysis now t).2 = t ∧
    ((behavioral_profiling st now t).1).2 = t ∧
    (predictive_risk_modeling now t).2 = t ∧
    (t.hasTimestamp = true → (temporal_pattern_analysis now t).2.rows = t.rows) ∧
    colLookup (temporal_pattern_analysis now t).2.extraCols "hour" =
      some ((fillTimestamps now t).rows.map (fun r => hourOf r.timestamp)) ∧
    colLookup (temporal_pattern_analysis now t).2.extraCols "day_of_week" =
      some ((fillTimestamps now t).rows.map (fun r => dowOf r.timestamp)) ∧
    colLookup (temporal_pattern_analysis now t).2.extraCols "day_of_month" =
      some ((fillTimestamps now t).rows.map (fun r => domOf r.timestamp)) ∧
    colLookup (temporal_pattern_analysis now t).2.extraCols "month" =
      some ((fillTimestamps now t).rows.map (fun r => monthOf r.timestamp)) ∧
    (temporal_pattern_analysis now t).2.hasCustomerId = t.hasCustomerId ∧
    (temporal_pattern_analysis now t).2.hasLocation = t.hasLocation := by
  refine ⟨rfl, rfl, rfl, rfl, ?_, ?_, ?_, ?_, ?_, ?_, ?_⟩
  · intro h
    show (temporalMutate now t).rows = t.rows
    rw [temporalMutate_rows]
    unfold fillTimestamps
    rw [if_pos h]
  · show colLookup (temporalMutate now t).extraCols "hour" = _
    simp only [temporalMutate]
    rw [colLookup_setCol_other _ _ _ _ (by decide),
      colLookup_setCol_other _ _ _ _ (by decide),
      colLookup_setCol_other _ _ _ _ (by decide),
      colLookup_setCol_same]
  · show colLookup (temporalMutate now t).extraCols "day_of_week" = _
    simp only [temporalMutate]
    rw [colLookup_setCol_other _ _ _ _ (by decide),
      colLookup_setCol_other _ _ _ _ (by decide),
      colLookup_setCol_same]
  · show colLookup (temporalMutate now t).extraCols "day_of_month" = _
    simp only [temporalMutate]
    rw [colLookup_setCol_other _ _ _ _ (by decide),
      colLookup_setCol_same]
  · show colLookup (temporalMutate now t).extraCols "month" = _
    simp only [temporalMutate]
    rw [colLookup_setCol_same]
  · exact temporalMutate_hasCustomerId now t
  · exact temporalMutate_hasLocation now t

/-- Claim C6 witness: the frame theorem applied to the star table, whose
timestamp column is present. -/
theorem c6_analyzer_frame_witness :
    starTable.hasTimestamp = true ∧
      (temporal_pattern_analysis 0 starTable).2.rows = starTable.rows ∧
      (network_analysis 0 starTable).2 = starTable :=
  ⟨rfl, (c6_analyzer_frame freshEngine 0 starTable).2.2.2.2.1 rfl,
    (c6_analyzer_frame freshEngine 0 starTable).1⟩

/-! ## Graph-construction lemmas -/

theorem edgeKey_bumpEdge (e : Edge) (a : Rat) (ts : Nat) :
    edgeKey (bumpEdge e a ts) = edgeKey e := rfl

theorem addTransaction_keys_nodup (es : List Edge) (s g : String) (a : Rat)
    (ts : Nat) (h : (es.map edgeKey).Nodup) :
    ((addTransaction es s g a ts).map edgeKey).Nodup := by
  unfold addTransaction
  split
  · have heq :
        (es.map (fun e =>
          if (e.source = s && e.target = g) = true then bumpEdge e a ts
          else e)).map edgeKey = es.map edgeKey := by
      rw [List.map_map]
      apply List.map_congr_left
      intro e _
      by_cases hc : (e.source = s && e.target = g) = true
      · simp [Function.comp, hc, edgeKey_bumpEdge]
      · simp [Function.comp, hc]
    rw [heq]
    exact h
  · rename_i hany
    rw [List.map_append]
    have hall : ∀ e ∈ es, ¬(e.source = s ∧ e.target = g) := by
      intro e he hc
      exact hany (List.any_eq_true.mpr ⟨e, he, by simp [hc.1, hc.2]⟩)
    refine List.Nodup.append h (by simp) ?_
    intro k hk hk'
    simp only [List.mem_map] at hk
    obtain ⟨e, he, rfl⟩ := hk
    simp only [List.map_cons, List.map_nil, List.mem_singleton] at hk'
    have h1 : e.source = s := congrArg Prod.fst hk'
    have h2 : e.target = g := congrArg Prod.snd hk'
    exact hall e he ⟨h1, h2⟩

theorem findEdge_self (es : List Edge) (h : (es.map edgeKey).Nodup)
    (e : Edge) (he : e ∈ es) : findEdge es e.source e.target = some e := by
  induction es with
  | nil => cases he
  | cons x xs ih =>
    rw [List.map_cons, List.nodup_cons] at h
    rcases List.mem_cons.mp he with rfl | hmem
    · unfold findEdge
      rw [if_pos ⟨rfl, rfl⟩]
    · have hx : ¬(x.source = e.source ∧ x.target = e.target) := by
        intro hc
        have hkey : edgeKey x = edgeKey e := by
          simp [edgeKey, hc.1, hc.2]
        exact h.1 (hkey ▸ List.mem_map_of_mem edgeKey hmem)
      unfold findEdge
      rw [if_neg hx]
      exact ih h.2 hmem

theorem findEdge_addTransaction_same (es : List Edge) (s g : String)
    (a : Rat) (ts : Nat) :
    findEdge (addTransaction es s g a ts) s g =
      some (match findEdge es s g with
        | some e0 => bumpEdge e0 a ts
        | none => { source := s, target := g, weight := a,
                    transaction_count := 1, timestamps := [ts] }) := by
  unfold addTransaction
  split
  · rename_i hany
    induction es with
    | nil => simp at hany
    | cons x xs ih =>
      by_cases hc : x.source = s ∧ x.target = g
      · have hcb : (x.source = s && x.target = g) = true := by
          simp [hc.1, hc.2]
        simp only [List.map_cons, if_pos hcb]
        unfold findEdge
        rw [if_pos (show (bumpEdge x a ts).source = s ∧
            (bumpEdge x a ts).target = g from hc), if_pos hc]
      · have hcb : ¬((x.source = s && x.target = g) = true) := by
          simpa [Bool.and_eq_true, decide_eq_true_eq] using hc
        simp only [List.map_cons, if_neg hcb]
        have hany' : (xs.any fun e => e.source = s && e.target = g) = true := by
          rcases List.any_eq_true.mp hany with ⟨e, he, hpe⟩
          rcases List.mem_cons.mp he with rfl | hmem
          · exact absurd hpe hcb
          · exact List.any_eq_true.mpr ⟨e, hmem, hpe⟩
        unfold findEdge
        simp only [if_neg hc]
        exact ih hany'
  · rename_i hany
    have hall : ∀ e ∈ es, ¬(e.source = s ∧ e.target = g) := by
      intro e he hc
      exact hany (List.any_eq_true.mpr ⟨e, he, by simp [hc.1, hc.2]⟩)
    have hnone : findEdge es s g = none := by
      clear hany
      induction es with
      | nil => rfl
      | cons x xs ih =>
        unfold findEdge
        rw [if_neg (hall x (List.mem_cons_self x xs))]
        exact ih (fun e he => hall e (List.mem_cons_of_mem x he))
    rw [hnone]
    clear hany hnone
    induction es with
    | nil => simp [findEdge]
    | cons x xs ih =>
      rw [List.cons_append]
      unfold findEdge
      simp only [if_neg (hall x (List.mem_cons_self x xs))]
      exact ih (fun e he => hall e (List.mem_cons_of_mem x he))

theorem findEdge_addTransaction_other (es : List Edge) (s g : String)
    (a : Rat) (ts : Nat) (s' g' : String) (hne : ¬(s' = s ∧ g' = g)) :
    findEdge (addTransaction es s g a ts) s' g' = findEdge es s' g' := by
  unfold addTransaction
  split
  · clear * - hne
    induction es with
    | nil => rfl
    | cons x xs ih =>
      by_cases hc : (x.source = s && x.target = g) = true
      · simp only [List.map_cons, if_pos hc]
        simp only [Bool.and_eq_true, decide_eq_true_eq] at hc
        by_cases hq : x.source = s' ∧ x.target = g'
        · exact absurd ⟨hq.1.symm.trans hc.1, hq.2.symm.trans hc.2⟩ hne
        · unfold findEdge
          rw [if_neg (show ¬((bumpEdge x a ts).source = s' ∧
              (bumpEdge x a ts).target = g') from hq), if_neg hq]
          exact ih
      · simp only [List.map_cons, if_neg hc]
        by_cases hq : x.source = s' ∧ x.target = g'
        · unfold findEdge
          rw [if_pos hq, if_pos hq]
        · unfold findEdge
          rw [if_neg hq, if_neg hq]
          exact ih
  · clear * - hne
    induction es with
    | nil =>
      rw [List.nil_append]
      unfold findEdge
      rw [if_neg (by
        intro hc
        exact hne ⟨hc.1.symm, hc.2.symm⟩)]
      rfl
    | cons x xs ih =>
      rw [List.cons_append]
      unfold findEdge
      by_cases hq : x.source = s' ∧ x.target = g'
      · simp only [if_pos hq]
      · simp only [if_neg hq]
        exact ih

theorem foldl_addTransaction_spec (src tgt : Row → String) (amt : Row → Rat)
    (tsf : Row → Nat) (rows : List Row) :
    ∀ es : List Edge, (es.map edgeKey).Nodup →
      (((rows.foldl (fun acc r =>
          addTransaction acc (src r) (tgt r) (amt r) (tsf r)) es).map
            edgeKey).Nodup ∧
        ∀ e ∈ rows.foldl (fun acc r =>
            addTransaction acc (src r) (tgt r) (amt r) (tsf r)) es,
          match findEdge es e.source e.target with
          | some e0 =>
              e.transaction_count = e0.transaction_count +
                (rows.filter (fun r =>
                  src r = e.source && tgt r = e.target)).length ∧
              e.weight = e0.weight + ((rows.filter (fun r =>
                  src r = e.source && tgt r = e.target)).map amt).sum ∧
              e.timestamps = e0.timestamps ++ (rows.filter (fun r =>
                  src r = e.source && tgt r = e.target)).map tsf
          | none =>
              rows.filter (fun r => src r = e.source && tgt r = e.target) ≠ [] ∧
              e.transaction_count = (rows.filter (fun r =>
                  src r = e.source && tgt r = e.target)).length ∧
              e.weight = ((rows.filter (fun r =>
                  src r = e.source && tgt r = e.target)).map amt).sum ∧
              e.timestamps = (rows.filter (fun r =>
                  src r = e.source && tgt r = e.target)).map tsf) := by
  induction rows with
  | nil =>
    intro es h
    refine ⟨h, ?_⟩
    intro e he
    rw [findEdge_self es h e he]
    simp
  | cons r rest ih =>
    intro es h
    have h' := addTransaction_keys_nodup es (src r) (tgt r) (amt r) (tsf r) h
    obtain ⟨ihnd, ihspec⟩ :=
      ih (addTransaction es (src r) (tgt r) (amt r) (tsf r)) h'
    constructor
    · rw [List.foldl_cons]
      exact ihnd
    · intro e he
      rw [List.foldl_cons] at he
      have hs := ihspec e he
      by_cases hk : src r = e.source ∧ tgt r = e.target
      · obtain ⟨hk1, hk2⟩ := hk
        rw [← hk1, ← hk2] at hs ⊢
        have hsame :=
          findEdge_addTransaction_same es (src r) (tgt r) (amt r) (tsf r)
        rw [hsame] at hs
        have hfc : (r :: rest).filter (fun r' =>
            src r' = src r && tgt r' = tgt r) =
            r :: rest.filter (fun r' => src r' = src r && tgt r' = tgt r) := by
          simp [List.filter_cons]
        rw [hfc]
        cases hfe : findEdge es (src r) (tgt r) with
        | some e0 =>
          rw [hfe] at hs
          have hs1 : e.transaction_count = e0.transaction_count + 1 +
              (rest.filter (fun r' =>
                src r' = src r && tgt r' = tgt r)).length := hs.1
          have hs2 : e.weight = (e0.weight + amt r) +
              ((rest.filter (fun r' =>
                src r' = src r && tgt r' = tgt r)).map amt).sum := hs.2.1
          have hs3 : e.timestamps = (e0.timestamps ++ [tsf r]) ++
              (rest.filter (fun r' =>
                src r' = src r && tgt r' = tgt r)).map tsf := hs.2.2
          refine ⟨?_, ?_, ?_⟩
          · rw [List.length_cons]
            omega
          · rw [List.map_cons, List.sum_cons, hs2]
            ring
          · rw [List.map_cons, hs3]
            simp
        | none =>
          rw [hfe] at hs
          have hs1 : e.transaction_count = 1 +
              (rest.filter (fun r' =>
                src r' = src r && tgt r' = tgt r)).length := hs.1
          have hs2 : e.weight = amt r +
              ((rest.filter (fun r' =>
                src r' = src r && tgt r' = tgt r)).map amt).sum := hs.2.1
          have hs3 : e.timestamps = [tsf r] ++
              (rest.filter (fun r' =>
                src r' = src r && tgt r' = tgt r)).map tsf := hs.2.2
          refine ⟨List.cons_ne_nil _ _, ?_, ?_, ?_⟩
          · rw [List.length_cons]
            omega
          · rw [List.map_cons, List.sum_cons, hs2]
          · rw [List.map_cons, hs3]
            simp
      · have hother :=
          findEdge_addTransaction_other es (src r) (tgt r) (amt r) (tsf r)
            e.source e.target (by
              intro hc
              exact hk ⟨hc.1.symm, hc.2.symm⟩)
        rw [hother] at hs
        have hfb : (src r = e.source && tgt r = e.target) = false := by
          rcases Decidable.em (src r = e.source) with h1 | h1
          · rcases Decidable.em (tgt r = e.target) with h2 | h2
            · exact absurd ⟨h1, h2⟩ hk
            · simp [h2]
          · simp [h1]
        have hfc : (r :: rest).filter (fun r' =>
            src r' = e.source && tgt r' = e.target) =
            rest.filter (fun r' => src r' = e.source && tgt r' = e.target) := by
          simp [List.filter_cons, hfb]
        rw [hfc]
        exact hs

/-! ## Claim C5: percentage bounds -/

/-- Claim C5 (counterexample): the claim includes the empty table, but on
the empty table both the temporal percentages and the geographic
percentages divide by `len(transactions_df) = 0` and the modules raise
`ZeroDivisionError` — the percentages are not defined there. -/
theorem c5_empty_table_percentages_undefined :
    temporalOutcome 0 emptyTable = .error "ZeroDivisionError" ∧
      geoOutcome 0 emptyTable = .error "ZeroDivisionError" :=
  ⟨rfl, rfl⟩

/-- Claim C5 (amended): on every nonempty table the temporal module's
`unusual_hour_percentage` and `velocity_abuse_percentage` are defined and
lie in [0, 100]; on every nonempty table that has location and customer-id
columns the geographic module's `high_risk_percentage` and
`cross_border_percentage` are defined and lie in [0, 100]. -/
theorem c5_percentages_in_range (now : Nat) (t : Table) (h : t.rows ≠ []) :
    (∃ s, tempSummary? (temporalOutcome now t) = some s ∧
        0 ≤ s.unusual_hour_percentage ∧ s.unusual_hour_percentage ≤ 100 ∧
        0 ≤ s.velocity_abuse_percentage ∧ s.velocity_abuse_percentage ≤ 100) ∧
      (t.hasLocation = true → t.hasCustomerId = true →
        ∃ g, geoStats? (geoOutcome now t) = some g ∧
          0 ≤ g.high_risk_percentage ∧ g.high_risk_percentage ≤ 100 ∧
          0 ≤ g.cross_border_percentage ∧ g.cross_border_percentage ≤ 100) := by
  have hpos : 0 < t.rows.length := List.length_pos.mpr h
  constructor
  · have hpos' : 0 < (temporalMutate now t).rows.length := by
      rw [temporalMutate_rows_length]
      exact hpos
    simp only [temporalOutcome]
    rw [if_neg (Nat.pos_iff_ne_zero.mp hpos')]
    refine ⟨_, rfl, ?_, ?_, ?_, ?_⟩
    · exact (pct_bounds _ _ (List.length_filter_le _ _) hpos').1
    · exact (pct_bounds _ _ (List.length_filter_le _ _) hpos').2
    · exact (pct_bounds _ _
        (le_trans (rapidRows_length_le _) (le_of_eq (sortByTs_length _)))
        hpos').1
    · exact (pct_bounds _ _
        (le_trans (rapidRows_length_le _) (le_of_eq (sortByTs_length _)))
        hpos').2
  · intro hL hC
    simp only [geoOutcome, hL, hC, Bool.not_true, Bool.false_eq_true,
      if_false]
    rw [if_neg (Nat.pos_iff_ne_zero.mp hpos)]
    refine ⟨_, rfl, ?_, ?_, ?_, ?_⟩
    · exact (pct_bounds _ _ (List.length_filter_le _ _) hpos).1
    · exact (pct_bounds _ _ (List.length_filter_le _ _) hpos).2
    · exact (pct_bounds _ _ (List.length_filter_le _ _) hpos).1
    · exact (pct_bounds _ _ (List.length_filter_le _ _) hpos).2

/-- Claim C5 witness: the one-row table is nonempty and has both columns;
its temporal and geographic percentages exist and are bounded. -/
theorem c5_percentages_in_range_witness :
    oneRowTable.rows ≠ [] ∧
      (∃ s, tempSummary? (temporalOutcome 0 oneRowTable) = some s ∧
        0 ≤ s.unusual_hour_percentage ∧ s.unusual_hour_percentage ≤ 100 ∧
        0 ≤ s.velocity_abuse_percentage ∧ s.velocity_abuse_percentage ≤ 100) ∧
      (∃ g, geoStats? (geoOutcome 0 oneRowTable) = some g ∧
        0 ≤ g.high_risk_percentage ∧ g.high_risk_percentage ≤ 100 ∧
        0 ≤ g.cross_border_percentage ∧ g.cross_border_percentage ≤ 100) :=
  ⟨by decide,
    (c5_percentages_in_range 0 oneRowTable (by decide)).1,
    (c5_percentages_in_range 0 oneRowTable (by decide)).2 rfl rfl⟩

/-! ## Per-module risk-level range lemmas -/

theorem networkLevel_mem (now : Nat) (t : Table) :
    (netSummary? (networkOutcome now t)).map (·.risk_level) ∈
      allowedModuleLevels := by
  simp only [networkOutcome]
  split
  · split
    · simp [netSummary?, allowedModuleLevels]
    · simp only [netSummary?, networkAssemble, Option.map]
      split_ifs <;> simp [allowedModuleLevels]
  · simp only [netSummary?, networkAssemble, Option.map]
    split_ifs <;> simp [allowedModuleLevels]

theorem temporalLevel_mem (now : Nat) (t : Table) :
    (tempSummary? (temporalOutcome now t)).map (·.risk_level) ∈
      allowedModuleLevels := by
  simp only [temporalOutcome]
  split
  · simp [tempSummary?, allowedModuleLevels]
  · simp only [tempSummary?, Option.map]
    split_ifs <;> simp [allowedModuleLevels]

theorem geoLevel_mem (now : Nat) (t : Table) :
    (geoStats? (geoOutcome now t)).map (·.risk_level) ∈
      allowedModuleLevels := by
  simp only [geoOutcome]
  split
  · simp [geoStats?, allowedModuleLevels]
  · split
    · simp [geoStats?, allowedModuleLevels]
    · split
      · simp [geoStats?, allowedModuleLevels]
      · simp only [geoStats?, Option.map]
        split_ifs <;> simp [allowedModuleLevels]

theorem behavioralLevel_mem (now : Nat) (t : Table) :
    (behSummary? (behavioralOutcome now t)).map (·.risk_level) ∈
      allowedModuleLevels := by
  simp only [behavioralOutcome]
  split
  · simp [behSummary?, allowedModuleLevels]
  · simp only [behSummary?, Option.map]
    split_ifs <;> simp [allowedModuleLevels]

theorem predictiveLevel_mem (now : Nat) (t : Table) :
    (predSummary? (predictiveOutcome now t)).map (·.risk_level) ∈
      allowedModuleLevels := by
  simp only [predictiveOutcome]
  split
  · simp [predSummary?, allowedModuleLevels]
  · split
    · simp [predSummary?, allowedModuleLevels]
    · split
      · simp [predSummary?, allowedModuleLevels]
      · simp only [predSummary?, Option.map]
        split_ifs <;> simp [allowedModuleLevels]

/-! ## Claim C7: one edge per (source, target) pair -/

/-- Claim C7: in the graph built by network analysis the edge keys are
pairwise distinct — for every (source, target) pair there is exactly one
directed edge — and each edge's accumulated attributes come exactly from
the transactions connecting its pair: the count is their number (so the
first created the edge and each repeat incremented it), the weight is the
sum of their amounts, and the timestamp list is their timestamps in
order. -/
theorem c7_edge_uniqueness (t : Table) (now : Nat) :
    ((buildGraph t now).map edgeKey).Nodup ∧
      ∀ e ∈ buildGraph t now,
        t.rows.filter (fun r =>
            srcOf t.hasCustomerId r = e.source &&
              r.merchant_name = e.target) ≠ [] ∧
        e.transaction_count = (t.rows.filter (fun r =>
            srcOf t.hasCustomerId r = e.source &&
              r.merchant_name = e.target)).length ∧
        e.weight = ((t.rows.filter (fun r =>
            srcOf t.hasCustomerId r = e.source &&
              r.merchant_name = e.target)).map (·.amount)).sum ∧
        e.timestamps = (t.rows.filter (fun r =>
            srcOf t.hasCustomerId r = e.source &&
              r.merchant_name = e.target)).map (tsOf t.hasTimestamp now) := by
  have h := foldl_addTransaction_spec (srcOf t.hasCustomerId)
    (fun r => r.merchant_name) (fun r => r.amount) (tsOf t.hasTimestamp now)
    t.rows [] (by simp)
  refine ⟨h.1, ?_⟩
  intro e he
  have h2 := h.2 e he
  simpa [findEdge] using h2

/-- Claim C7 witness: in the table with two C1→M1 transactions and one
C2→M1 transaction, the single C1→M1 edge carries count 2, weight 200 and
both timestamps. -/
theorem c7_edge_uniqueness_witness :
    (dupEdge ∈ buildGraph dupTable 0) ∧
      dupEdge.transaction_count = (dupTable.rows.filter (fun r =>
          srcOf dupTable.hasCustomerId r = dupEdge.source &&
            r.merchant_name = dupEdge.target)).length :=
  ⟨by with_unfolding_all decide,
    ((c7_edge_uniqueness dupTable 0).2 dupEdge
      (by with_unfolding_all decide)).2.1⟩

/-! ## Claim C8: velocity is division-guarded -/

/-- Claim C8: every profile produced by behavioral profiling has velocity
equal to the customer's transaction count divided by
`max(elapsed-day-span, 1)`; the divisor is at least 1, so the division is
always guarded, and a customer with exactly one transaction gets velocity
`1 / max(0, 1) = 1`. -/
theorem c8_velocity_guarded (rows : List Row) (p : BehavioralFeature)
    (hp : p ∈ behavioralFeatures rows) :
    p.velocity = (p.transaction_count : Rat) /
        ((max (dateSpanDays (customerRows rows p.customer_id)) 1 : Nat) : Rat) ∧
      1 ≤ max (dateSpanDays (customerRows rows p.customer_id)) 1 ∧
      (p.transaction_count = 1 → p.velocity = 1) := by
  obtain ⟨c, hc, hpc⟩ := List.mem_map.mp hp
  subst hpc
  refine ⟨rfl, le_max_right _ _, ?_⟩
  intro h1
  have h1' : (customerRows rows c).length = 1 := h1
  obtain ⟨r, hr⟩ := List.length_eq_one.mp h1'
  show velocityOf (customerRows rows c) = 1
  rw [hr]
  simp [velocityOf, dateSpanDays, maxTs, minTs]

/-- Claim C8 witness: the single-customer, single-transaction table; its
profile is in the feature frame and its velocity is 1. -/
theorem c8_velocity_guarded_witness :
    oneRowFeature ∈ behavioralFeatures oneRowTable.rows ∧
      oneRowFeature.velocity = 1 :=
  ⟨by with_unfolding_all decide,
    (c8_velocity_guarded oneRowTable.rows oneRowFeature
      (by with_unfolding_all decide)).2.2 rfl⟩

/-! ## Module success characterizations -/

theorem temporalMutate_rows_eq_nil (now : Nat) (t : Table) :
    (temporalMutate now t).rows = [] ↔ t.rows = [] := by
  rw [← List.length_eq_zero, ← List.length_eq_zero,
    temporalMutate_rows_length]

theorem temporalOutcome_isSome (now : Nat) (t : Table) :
    (temporalOutcome now t).toOption.isSome = true ↔ t.rows ≠ [] := by
  simp only [temporalOutcome]
  by_cases h : (temporalMutate now t).rows.length = 0
  · rw [if_pos h]
    rw [temporalMutate_rows_length, List.length_eq_zero] at h
    simp [Except.toOption, h]
  · rw [if_neg h]
    rw [temporalMutate_rows_length] at h
    simp only [Except.toOption]
    simp [List.length_eq_zero] at h
    simp [h]

theorem geoOutcome_isSome (now : Nat) (t : Table) :
    (geoOutcome now t).toOption.isSome = true ↔
      (t.hasLocation = false ∨
        (t.hasCustomerId = true ∧ t.rows ≠ [])) := by
  simp only [geoOutcome]
  cases hL : t.hasLocation
  · simp [Except.toOption]
  · cases hC : t.hasCustomerId
    · simp [Except.toOption]
    · by_cases h : t.rows.length = 0
      · rw [List.length_eq_zero] at h
        simp [Except.toOption, h]
      · rw [List.length_eq_zero] at h
        simp only [Bool.not_true, Bool.false_eq_true, if_false,
          if_neg (by rwa [List.length_eq_zero] : ¬ t.rows.length = 0)]
        simp [Except.toOption, h]

theorem behavioralOutcome_isSome (now : Nat) (t : Table) :
    (behavioralOutcome now t).toOption.isSome = true ↔
      (t.hasCustomerId = true ∧ t.hasLocation = true ∧
        t.hasTimestamp = true) := by
  simp only [behavioralOutcome]
  cases hC : t.hasCustomerId <;> cases hL : t.hasLocation <;>
    cases hT : t.hasTimestamp <;> simp [Except.toOption]

theorem predictiveOutcome_isSome (now : Nat) (t : Table) :
    (predictiveOutcome now t).toOption.isSome = true ↔
      (t.hasTimestamp = true ∧ t.hasLocation = true ∧ t.rows ≠ []) := by
  simp only [predictiveOutcome]
  cases hT : t.hasTimestamp
  · simp [Except.toOption]
  · cases hL : t.hasLocation
    · simp [Except.toOption]
    · by_cases h : t.rows.length = 0
      · rw [List.length_eq_zero] at h
        simp [Except.toOption, h]
      · simp only [Bool.not_true, Bool.false_eq_true, if_false, if_neg h]
        rw [List.length_eq_zero] at h
        simp [Except.toOption, h]

theorem networkOutcome_empty_ok (now : Nat) (t : Table) (h : t.rows = []) :
    (networkOutcome now t).toOption.isSome = true := by
  have hb : buildGraph t now = [] := by
    simp [buildGraph, h]
  simp [networkOutcome, hb, graphNodes, Except.toOption]

theorem overall_level_ne_unknown (st : EngineState) (now : Nat) (t : Table) :
    (comprehensive_analysis_report st now t).executive_summary.overall_risk_level ≠
      "UNKNOWN" := by
  by_cases h : t.rows = []
  · have hok := networkOutcome_empty_ok now t h
    cases hno : networkOutcome now t with
    | error e =>
      rw [hno] at hok
      simp [Except.toOption] at hok
    | ok r =>
      simp only [comprehensive_analysis_report, network_analysis,
        temporal_pattern_analysis, geographic_clustering_analysis,
        behavioral_profiling, predictive_risk_modeling]
      simp [hno, Except.toOption, List.isEmpty_iff]
      split_ifs <;> decide
  · have hok := (temporalOutcome_isSome now t).mpr h
    cases hto : temporalOutcome now t with
    | error e =>
      rw [hto] at hok
      simp [Except.toOption] at hok
    | ok r =>
      simp only [comprehensive_analysis_report, network_analysis,
        temporal_pattern_analysis, geographic_clustering_analysis,
        behavioral_profiling, predictive_risk_modeling]
      simp [hto, Except.toOption, List.isEmpty_iff]
      split_ifs <;> decide

/-! ## Claim C1: partial failure handling of the comprehensive report -/

/-- Claim C1: the comprehensive report is total — every module call's
exception is caught at the module boundary and the failed module's key is
simply absent from the returned map (no null entry), while the other
modules still run: each module's presence is characterized by its own
failure condition alone (temporal fails exactly on the empty table;
geographic is present unless its statistics path raises, behavioral and
predictive are present exactly when the columns they touch exist — the
timestamp column always existing after the temporal module's in-place
fill); the network module always succeeds on an empty table; and the
executive summary's overall risk level is UNKNOWN only if zero modules
succeed — indeed it is never UNKNOWN, because on an empty table the
network module succeeds and on a nonempty table the temporal module
does. -/
theorem c1_report_partial_failure (st : EngineState) (now : Nat) (t : Table) :
    ((comprehensive_analysis_report st now t).temporal?.isSome = true ↔
      t.rows ≠ []) ∧
    ((comprehensive_analysis_report st now t).geographic?.isSome = true ↔
      (t.hasLocation = false ∨ (t.hasCustomerId = true ∧ t.rows ≠ []))) ∧
    ((comprehensive_analysis_report st now t).behavioral?.isSome = true ↔
      (t.hasCustomerId = true ∧ t.hasLocation = true)) ∧
    ((comprehensive_analysis_report st now t).predictive?.isSome = true ↔
      (t.hasLocation = true ∧ t.rows ≠ [])) ∧
    (t.rows = [] →
      (comprehensive_analysis_report st now t).network?.isSome = true) ∧
    (comprehensive_analysis_report st now t).executive_summary.overall_risk_level ≠
      "UNKNOWN" ∧
    ((comprehensive_analysis_report st now t).executive_summary.overall_risk_level =
        "UNKNOWN" →
      (comprehensive_analysis_report st now t).network? = none ∧
      (comprehensive_analysis_report st now t).temporal? = none ∧
      (comprehensive_analysis_report st now t).geographic? = none ∧
      (comprehensive_analysis_report st now t).behavioral? = none ∧
      (comprehensive_analysis_report st now t).predictive? = none) := by
  refine ⟨?_, ?_, ?_, ?_, ?_, overall_level_ne_unknown st now t,
    fun hU => absurd hU (overall_level_ne_unknown st now t)⟩
  · show (temporalOutcome now t).toOption.isSome = true ↔ _
    exact temporalOutcome_isSome now t
  · show (geoOutcome now (temporalMutate now t)).toOption.isSome = true ↔ _
    rw [geoOutcome_isSome now (temporalMutate now t),
      temporalMutate_hasLocation, temporalMutate_hasCustomerId]
    simp [ne_eq, temporalMutate_rows_eq_nil]
  · show (behavioralOutcome now (temporalMutate now t)).toOption.isSome = true ↔ _
    rw [behavioralOutcome_isSome now (temporalMutate now t),
      temporalMutate_hasCustomerId, temporalMutate_hasLocation,
      temporalMutate_hasTimestamp]
    simp
  · show (predictiveOutcome now (temporalMutate now t)).toOption.isSome = true ↔ _
    rw [predictiveOutcome_isSome now (temporalMutate now t),
      temporalMutate_hasTimestamp, temporalMutate_hasLocation]
    simp [ne_eq, temporalMutate_rows_eq_nil]
  · intro h
    show (networkOutcome now t).toOption.isSome = true
    exact networkOutcome_empty_ok now t h

/-- Claim C1 witness: on the empty table the temporal, geographic and
predictive modules fail and are absent from the report, the network module
is present, and the overall risk level is not UNKNOWN. -/
theorem c1_report_partial_failure_witness :
    emptyTable.rows = [] ∧
      (comprehensive_analysis_report freshEngine 0 emptyTable).network?.isSome = true ∧
      ¬ (comprehensive_analysis_report freshEngine 0 emptyTable).temporal?.isSome = true ∧
      (comprehensive_analysis_report freshEngine 0 emptyTable).executive_summary.overall_risk_level ≠
        "UNKNOWN" :=
  ⟨rfl,
    (c1_report_partial_failure freshEngine 0 emptyTable).2.2.2.2.1 rfl,
    fun hc =>
      ((c1_report_partial_failure freshEngine 0 emptyTable).1.mp hc) rfl,
    (c1_report_partial_failure freshEngine 0 emptyTable).2.2.2.2.2.1⟩

/-! ## Claim C4: the aggregator's mean and re-bucketing -/

/-- Claim C4: the executive summary's overall risk score is the arithmetic
mean of the ordinal scores (LOW=25, MEDIUM=50, HIGH=75, CRITICAL=100) of
the risk levels of the modules present in the report, and the overall risk
level re-buckets that mean through ≥75 CRITICAL / ≥50 HIGH / ≥25 MEDIUM /
else LOW, with UNKNOWN exactly when no module contributed a risk level. -/
theorem c4_aggregator_mean_rebucket (st : EngineState) (now : Nat) (t : Table) :
    ((comprehensive_analysis_report st now t).executive_summary.overall_risk_score =
      (if reportRiskLevels (comprehensive_analysis_report st now t) = [] then 0
       else ((reportRiskLevels (comprehensive_analysis_report st now t)).map
          specOrdinalScore).sum /
          ((reportRiskLevels (comprehensive_analysis_report st now t)).length : Rat))) ∧
    ((comprehensive_analysis_report st now t).executive_summary.overall_risk_level =
      (if reportRiskLevels (comprehensive_analysis_report st now t) = [] then "UNKNOWN"
       else specBucket (((reportRiskLevels (comprehensive_analysis_report st now t)).map
          specOrdinalScore).sum /
          ((reportRiskLevels (comprehensive_analysis_report st now t)).length : Rat)))) := by
  have hfun : riskScoreOf = specOrdinalScore := rfl
  simp only [comprehensive_analysis_report, network_analysis,
    temporal_pattern_analysis, geographic_clustering_analysis,
    behavioral_profiling, predictive_risk_modeling, reportRiskLevels]
  cases hn : networkOutcome now t <;>
    cases ht : temporalOutcome now t <;>
      cases hg : geoOutcome now (temporalMutate now t) <;>
        cases hb : behavioralOutcome now (temporalMutate now t) <;>
          cases hp : predictiveOutcome now (temporalMutate now t) <;>
            (simp [Except.toOption, hfun, specBucket, List.isEmpty_iff]
             all_goals (split_ifs <;> simp_all))

/-! ## Claim C9: idempotence and state independence -/

theorem temporalOutcome_eq_of_rows (now : Nat) (t u : Table)
    (h : (temporalMutate now t).rows = (temporalMutate now u).rows) :
    temporalOutcome now t = temporalOutcome now u := by
  simp only [temporalOutcome]
  rw [h]

/-- Claim C9: the analyzers are deterministic and idempotent across
repeated calls on the engine's shared table and state.  Behavioral
profiling ignores the incoming scaler/detector fit state entirely — it is
re-fitted within each call — so its outcome and post-table are identical
for any two engine states; and re-running each analyzer at the same
wall-clock instant on the table the first call left behind (for the
temporal module, the one carrying its in-place derived columns) returns
exactly the first result again. -/
theorem c9_idempotent_deterministic (st st' : EngineState) (now : Nat)
    (t : Table) :
    (behavioral_profiling st now t).1 = (behavioral_profiling st' now t).1 ∧
      temporalOutcome now ((temporal_pattern_analysis now t).2) =
        temporalOutcome now t ∧
      networkOutcome now ((network_analysis now t).2) = networkOutcome now t ∧
      geoOutcome now ((geographic_clustering_analysis now t).2) =
        geoOutcome now t ∧
      behavioralOutcome now (((behavioral_profiling st now t).1).2) =
        behavioralOutcome now t ∧
      predictiveOutcome now ((predictive_risk_modeling now t).2) =
        predictiveOutcome now t := by
  refine ⟨rfl, ?_, rfl, rfl, rfl, rfl⟩
  apply temporalOutcome_eq_of_rows
  show (temporalMutate now (temporalMutate now t)).rows = _
  rw [temporalMutate_rows (t := temporalMutate now t)]
  unfold fillTimestamps
  rw [if_pos (temporalMutate_hasTimestamp now t)]

/-! ## Claim C10: no module summary is CRITICAL -/

/-- Claim C10: for every input table and every analyzer module, a summary
risk level the module produces is LOW, MEDIUM or HIGH (or there is no
summary risk level at all, the module having failed or — geographic only —
returned the keyless error summary); no individual module ever reports
CRITICAL as its summary risk level. -/
theorem c10_no_module_level_critical (now : Nat) (t : Table) :
    (netSummary? (networkOutcome now t)).map (·.risk_level) ∈
        allowedModuleLevels ∧
      (tempSummary? (temporalOutcome now t)).map (·.risk_level) ∈
        allowedModuleLevels ∧
      (geoStats? (geoOutcome now t)).map (·.risk_level) ∈
        allowedModuleLevels ∧
      (behSummary? (behavioralOutcome now t)).map (·.risk_level) ∈
        allowedModuleLevels ∧
      (predSummary? (predictiveOutcome now t)).map (·.risk_level) ∈
        allowedModuleLevels ∧
      some "CRITICAL" ∉ allowedModuleLevels :=
  ⟨networkLevel_mem now t, temporalLevel_mem now t, geoLevel_mem now t,
    behavioralLevel_mem now t, predictiveLevel_mem now t, by decide⟩

end Analytics
